import Mathlib

set_option maxRecDepth 100000
set_option maxHeartbeats 1000000

/-!
Verification of the avure-insights price-wise data-acquisition runtime.

This file gives a shallow embedding in Lean 4 of the core extraction,
reconciliation, aggregation and session-tracking logic of `scrape.py` and
`analyze.py`, and proves (or refutes) the behavioural claims made about it.

Modelling conventions:
* Python floats are modelled as `ℚ`.  A value that is Python `None` or a
  pandas `NaN` is modelled as `none : Option ℚ` (the two are unified; at the
  places where CPython distinguishes them the surrounding control flow is
  transliterated so that the observable result agrees, noted locally).
* `round(x, 2)` and the `:,.2f` format specifier are modelled as exact
  round-half-to-even at two decimals on `ℚ`.
* DOM queries made through BeautifulSoup are modelled as pre-extracted
  signals (`Dom`, `RoomTable`, `RoomRow` below): the embedding starts where
  the selector results enter the pure normalisation logic.
* All functions are total; "never raises" claims are reflected by totality
  plus explicit error results.
-/

namespace AvureInsights

/-! ## Generic list helpers (insertion sort, means, min/max) -/

/-- Insert `a` into `l` in front of the first element `b` with `le a b`. -/
def insertBy (le : α → α → Bool) (a : α) : List α → List α
  | [] => [a]
  | b :: l => if le a b then a :: b :: l else b :: insertBy le a l

/-- Insertion sort by a boolean comparison; models `sort_values`. -/
def sortBy (le : α → α → Bool) : List α → List α
  | [] => []
  | a :: l => insertBy le a (sortBy le l)

theorem mem_insertBy (le : α → α → Bool) (a x : α) (l : List α) :
    x ∈ insertBy le a l ↔ x = a ∨ x ∈ l := by
  induction l with
  | nil => simp [insertBy]
  | cons b l ih =>
    by_cases h : le a b
    · simp [insertBy, h]
    · simp [insertBy, h, ih]
      tauto

theorem mem_sortBy (le : α → α → Bool) (x : α) (l : List α) :
    x ∈ sortBy le l ↔ x ∈ l := by
  induction l with
  | nil => simp [sortBy]
  | cons a l ih => simp [sortBy, mem_insertBy, ih]

/-- Sum of a list of rationals. -/
def qsum : List ℚ → ℚ
  | [] => 0
  | x :: xs => x + qsum xs

/-- Arithmetic mean of a list of rationals (0 on the empty list; callers
guard emptiness the way the Python code does). -/
def qmean (xs : List ℚ) : ℚ := qsum xs / xs.length

/-- Leftmost minimum of a list, `none` on `[]`; models Python `min`. -/
def listMin? : List ℚ → Option ℚ
  | [] => none
  | x :: xs =>
    match listMin? xs with
    | none => some x
    | some m => some (min x m)

/-- Leftmost maximum of a list, `none` on `[]`; models Python `max`. -/
def listMax? : List ℚ → Option ℚ
  | [] => none
  | x :: xs =>
    match listMax? xs with
    | none => some x
    | some m => some (max x m)

/-- pandas `Series.mean()` with `skipna=True`: `none` iff no non-null value. -/
def meanOpt (xs : List (Option ℚ)) : Option ℚ :=
  let v := xs.filterMap id
  if v.isEmpty then none else some (qmean v)

/-- pandas `Series.min()` with `skipna=True`. -/
def minOpt (xs : List (Option ℚ)) : Option ℚ := listMin? (xs.filterMap id)

/-- pandas `Series.max()` with `skipna=True`. -/
def maxOpt (xs : List (Option ℚ)) : Option ℚ := listMax? (xs.filterMap id)

theorem pairwise_insertBy (le : α → α → Bool)
    (htot : ∀ x y, le x y = true ∨ le y x = true)
    (htr : ∀ x y z, le x y = true → le y z = true → le x z = true)
    (a : α) (l : List α) (hl : l.Pairwise (fun x y => le x y = true)) :
    (insertBy le a l).Pairwise (fun x y => le x y = true) := by
  induction l with
  | nil => simp [insertBy]
  | cons b l ih =>
    rw [List.pairwise_cons] at hl
    obtain ⟨hb, hl⟩ := hl
    cases h : le a b with
    | true =>
      rw [insertBy, if_pos h]
      refine List.Pairwise.cons ?_ (List.Pairwise.cons hb hl)
      intro x hx
      rcases List.mem_cons.mp hx with rfl | hx
      · exact h
      · exact htr a b x h (hb x hx)
    | false =>
      have hba : le b a = true := by
        rcases htot a b with h1 | h1
        · rw [h1] at h; exact absurd h (by simp)
        · exact h1
      rw [insertBy, if_neg (by simp [h])]
      refine List.Pairwise.cons ?_ (ih hl)
      intro x hx
      rcases (mem_insertBy le a x l).mp hx with rfl | hx
      · exact hba
      · exact hb x hx

theorem pairwise_sortBy (le : α → α → Bool)
    (htot : ∀ x y, le x y = true ∨ le y x = true)
    (htr : ∀ x y z, le x y = true → le y z = true → le x z = true)
    (l : List α) :
    (sortBy le l).Pairwise (fun x y => le x y = true) := by
  induction l with
  | nil => simp [sortBy]
  | cons a l ih => exact pairwise_insertBy le htot htr a (sortBy le l) ih

/-- Round-half-to-even to an integer, the rounding used by Python's
`round` and `format`. -/
def roundHalfEven (q : ℚ) : ℤ :=
  let f : ℤ := Rat.floor q
  let r : ℚ := q - f
  if r < 1/2 then f
  else if 1/2 < r then f + 1
  else if f % 2 = 0 then f else f + 1

/-- Python `round(x, 2)` on the rational model. -/
def roundQ2 (q : ℚ) : ℚ := (roundHalfEven (q * 100) : ℚ) / 100

/-! ## JSON values and a parser modelling `json.loads`

The parser covers the JSON fragment appearing in the scraped pages: null,
booleans, decimal numbers without exponents, strings with single-character
escapes (no `\uXXXX`), arrays and objects.  `json.loads` on this fragment
agrees with it. -/

inductive Json where
  | null : Json
  | bool (b : Bool) : Json
  | num (q : ℚ) : Json
  | str (s : String) : Json
  | arr (xs : List Json) : Json
  | obj (fields : List (String × Json)) : Json

/-- Python truthiness of a JSON value. -/
def jtruthy : Json → Bool
  | .null => false
  | .bool b => b
  | .num q => decide (q ≠ 0)
  | .str s => decide (s ≠ "")
  | .arr xs => !xs.isEmpty
  | .obj fs => !fs.isEmpty

/-- Whitespace accepted by `json.loads` between tokens. -/
def jsonWs (c : Char) : Bool := c = ' ' || c = '\t' || c = '\n' || c = '\r'

def skipJsonWs : List Char → List Char
  | [] => []
  | c :: cs => if jsonWs c then skipJsonWs cs else c :: cs

/-- Decode one string-literal escape character: the self-representing
escapes, the named control characters, backspace and form feed. -/
def jsonEsc? (e : Char) : Option Char :=
  if e = '"' ∨ e = '\\' ∨ e = '/' then some e
  else if e = 'n' then some '\n'
  else if e = 't' then some '\t'
  else if e = 'r' then some '\r'
  else if e = 'b' then some (Char.ofNat 8)
  else if e = 'f' then some (Char.ofNat 12)
  else none

/-- Parse the body of a string literal (after the opening quote). -/
def pStringBody : List Char → Option (List Char × List Char)
  | [] => none
  | '"' :: rest => some ([], rest)
  | '\\' :: e :: rest =>
    match jsonEsc? e with
    | none => none
    | some c =>
      match pStringBody rest with
      | none => none
      | some (s, r) => some (c :: s, r)
  | c :: rest =>
    if c = '\\' then none
    else
      match pStringBody rest with
      | none => none
      | some (s, r) => some (c :: s, r)

def digitVal (c : Char) : ℕ := c.toNat - 48

/-- Split off the leading run of decimal digits. -/
def splitDigits (cs : List Char) : List Char × List Char :=
  (cs.takeWhile Char.isDigit, cs.dropWhile Char.isDigit)

def digitsToNat (ds : List Char) : ℕ := ds.foldl (fun a c => a * 10 + digitVal c) 0

/-- Parse an optionally-signed decimal number (no exponent). -/
def pNumber (cs0 : List Char) : Option (ℚ × List Char) :=
  let neg : Bool := cs0.head? = some '-'
  let (ip, cs2) := splitDigits (if neg then cs0.tail else cs0)
  if ip.isEmpty then none
  else
    let base : ℚ := (digitsToNat ip : ℚ)
    match cs2 with
    | '.' :: cs3 =>
      let (fp, cs4) := splitDigits cs3
      if fp.isEmpty then none
      else
        let v := base + (digitsToNat fp : ℚ) / ((10 : ℚ) ^ fp.length)
        some (if neg then -v else v, cs4)
    | _ => some (if neg then -base else base, cs2)

/-- Check that `tok` is a prefix of `cs` and return the remainder. -/
def dropToken : List Char → List Char → Option (List Char)
  | [], cs => some cs
  | t :: ts, c :: cs => if c = t then dropToken ts cs else none
  | _ :: _, [] => none

mutual

/-- Parse one JSON value (fuel-indexed recursive descent). -/
def pValue : ℕ → List Char → Option (Json × List Char)
  | 0, _ => none
  | fuel + 1, cs =>
    match skipJsonWs cs with
    | [] => none
    | c :: rest =>
      if c = '"' then
        match pStringBody rest with
        | none => none
        | some (s, r) => some (.str (String.mk s), r)
      else if c = '[' then
        match skipJsonWs rest with
        | ']' :: r => some (.arr [], r)
        | r2 =>
          match pArrayItems fuel r2 with
          | none => none
          | some (xs, r) => some (.arr xs, r)
      else if c = '{' then
        match skipJsonWs rest with
        | '}' :: r => some (.obj [], r)
        | r2 =>
          match pObjFields fuel r2 with
          | none => none
          | some (fs, r) => some (.obj fs, r)
      else if c = 't' then
        match dropToken ("rue").toList rest with
        | some r => some (.bool true, r)
        | none => none
      else if c = 'f' then
        match dropToken ("alse").toList rest with
        | some r => some (.bool false, r)
        | none => none
      else if c = 'n' then
        match dropToken ("ull").toList rest with
        | some r => some (.null, r)
        | none => none
      else
        match pNumber (c :: rest) with
        | some (q, r) => some (.num q, r)
        | none => none

/-- Parse the non-empty item list of an array, consuming the closing `]`. -/
def pArrayItems : ℕ → List Char → Option (List Json × List Char)
  | 0, _ => none
  | fuel + 1, cs =>
    match pValue fuel cs with
    | none => none
    | some (v, r) =>
      match skipJsonWs r with
      | ',' :: r2 =>
        match pArrayItems fuel r2 with
        | none => none
        | some (vs, r3) => some (v :: vs, r3)
      | ']' :: r2 => some ([v], r2)
      | _ => none

/-- Parse the non-empty member list of an object, consuming the closing `}`. -/
def pObjFields : ℕ → List Char → Option (List (String × Json) × List Char)
  | 0, _ => none
  | fuel + 1, cs =>
    match skipJsonWs cs with
    | '"' :: rest =>
      match pStringBody rest with
      | none => none
      | some (k, r) =>
        match skipJsonWs r with
        | ':' :: r2 =>
          match pValue fuel r2 with
          | none => none
          | some (v, r3) =>
            match skipJsonWs r3 with
            | ',' :: r4 =>
              match pObjFields fuel r4 with
              | none => none
              | some (fs, r5) => some ((String.mk k, v) :: fs, r5)
            | '}' :: r4 => some ([(String.mk k, v)], r4)
            | _ => none
        | _ => none
    | _ => none

end

/-- Model of `json.loads`: parse a complete document, rejecting trailing
content (beyond whitespace). -/
def parseJson (s : String) : Option Json :=
  match pValue (s.length + 1) s.toList with
  | none => none
  | some (v, rest) => if (skipJsonWs rest).isEmpty then some v else none

/-! ## `scrape.py`: `extract_rooms_json_from_html`

The source locates `b_rooms_available_and_soldout:` with the regex
`b_rooms_available_and_soldout:\s*(\[)` — note that only an *array*
opening bracket is accepted — then scans forward with a nesting-depth
counter, an in-string flag and one-character escape lookahead, and feeds
the isolated span to `json.loads`. -/

/-- The literal key token of the regex, including the colon. -/
def keyToken : List Char := ("b_rooms_available_and_soldout:").toList

/-- Python `\s` whitespace. -/
def pyWs (c : Char) : Bool :=
  c = ' ' || c = '\t' || c = '\n' || c = '\r' ||
  c = Char.ofNat 12 || c = Char.ofNat 11

/-- Drop leading `\s*` whitespace, counting how much was dropped. -/
def skipPyWsCount : List Char → ℕ × List Char
  | [] => (0, [])
  | c :: cs =>
    if pyWs c then
      let (n, r) := skipPyWsCount cs
      (n + 1, r)
    else (0, c :: cs)

/-- If the whole regex matches at the start of `cs`, return the offset of
the captured `[` from the start of the match. -/
def matchKeyAt (cs : List Char) : Option ℕ :=
  match dropToken keyToken cs with
  | none => none
  | some rest =>
    let (n, rest2) := skipPyWsCount rest
    match rest2 with
    | '[' :: _ => some (keyToken.length + n)
    | _ => none

/-- `re.search`: leftmost position where the whole pattern matches;
returns the absolute index of the captured `[`. -/
def findKeyStart : List Char → ℕ → Option ℕ
  | [], _ => none
  | c :: rest, i =>
    match matchKeyAt (c :: rest) with
    | some off => some (i + off)
    | none => findKeyStart rest (i + 1)

/-- Whether the bare key token occurs anywhere in the text. -/
def keyOccurs : List Char → Bool
  | [] => false
  | c :: rest => (dropToken keyToken (c :: rest)).isSome || keyOccurs rest

theorem findKeyStart_eq_none_of_no_key (cs : List Char) (i : ℕ)
    (h : keyOccurs cs = false) : findKeyStart cs i = none := by
  induction cs generalizing i with
  | nil => rfl
  | cons c rest ih =>
    rw [keyOccurs, Bool.or_eq_false_iff] at h
    obtain ⟨h1, h2⟩ := h
    rw [findKeyStart]
    have : matchKeyAt (c :: rest) = none := by
      rw [matchKeyAt]
      cases hd : dropToken keyToken (c :: rest) with
      | none => rfl
      | some r => rw [hd] at h1; simp [Option.isSome] at h1
    rw [this]
    exact ih (i + 1) h2

/-- The character scan of `extract_rooms_json_from_html`: nesting-depth
counter with in-string flag and escape lookahead.  Returns the absolute
index at which the depth counter returns to zero. -/
def scanLiteral : List Char → ℕ → ℤ → Bool → Bool → Option ℕ
  | [], _, _, _, _ => none
  | c :: rest, i, depth, inStr, esc =>
    if esc then scanLiteral rest (i + 1) depth inStr false
    else if c = '\\' then scanLiteral rest (i + 1) depth inStr true
    else
      let inStr2 := if c = '"' then !inStr else inStr
      if inStr2 then scanLiteral rest (i + 1) depth inStr2 false
      else if c = '[' || c = '{' then scanLiteral rest (i + 1) (depth + 1) inStr2 false
      else if c = ']' || c = '}' then
        if depth - 1 = 0 then some i
        else scanLiteral rest (i + 1) (depth - 1) inStr2 false
      else scanLiteral rest (i + 1) depth inStr2 false

/-- `extract_rooms_json_from_html`: returns the parsed room array, or `[]`
if the key is absent, the literal never closes, or `json.loads` fails.
The function is total: no failure propagates to the caller. -/
def extract_rooms_json_from_html (html : String) : List Json :=
  let cs := html.toList
  match findKeyStart cs 0 with
  | none => []
  | some p =>
    match scanLiteral (cs.drop p) p 0 false false with
    | none => []
    | some iEnd =>
      let lit := String.mk ((cs.drop p).take (iEnd + 1 - p))
      match parseJson lit with
      | some (Json.arr xs) => xs
      | _ => []

/-! ### Claim C1 -/

/-- Counterexample to C1 as stated.  The key token followed by the
bracket-delimited *object* literal `{"a": 1}` — well-formed and parseable,
so none of the stated empty-result conditions (absent key, truncated
literal, parse failure) holds — nevertheless yields the empty result: the
regex of `extract_rooms_json_from_html` only accepts an array bracket `[`
after the key.  The parsed value of the literal is a non-empty object, not
the empty result. -/
theorem c1_counterexample :
    extract_rooms_json_from_html "b_rooms_available_and_soldout: \x7b\"a\": 1\x7d" = [] ∧
    keyOccurs ("b_rooms_available_and_soldout: \x7b\"a\": 1\x7d").toList = true ∧
    parseJson "\x7b\"a\": 1\x7d" = some (Json.obj [("a", Json.num 1)]) ∧
    Json.obj [("a", Json.num 1)] ≠ Json.arr [] :=
  ⟨rfl, rfl, rfl, fun h => Json.noConfusion h⟩

/-- C1 (amended to array literals): if the key token is followed by a
square-bracket *array* literal, the extractor returns the parsed value of
the first such literal, the string-aware depth scan ignoring brackets
inside quoted strings and escaped quotes — shown on a literal containing a
nested array, a quoted string with an escaped quote, and a quoted string
containing a literal `]`; if the key is absent, the literal is truncated,
or the isolated substring fails to parse, it returns the same empty
result, and it never raises (it is a total function). -/
theorem c1_extractor :
    extract_rooms_json_from_html
        "foo b_rooms_available_and_soldout: [[1, 2], \"a\\\"]b\", \"c]d\"] bar" =
      [Json.arr [Json.num 1, Json.num 2], Json.str "a\"]b", Json.str "c]d"] ∧
    (∀ s : String, keyOccurs s.toList = false → extract_rooms_json_from_html s = []) ∧
    extract_rooms_json_from_html "b_rooms_available_and_soldout: [1, 2" = [] ∧
    extract_rooms_json_from_html "b_rooms_available_and_soldout: [1 2]" = [] := by
  refine ⟨rfl, ?_, rfl, rfl⟩
  intro s h
  unfold extract_rooms_json_from_html
  simp only []
  rw [findKeyStart_eq_none_of_no_key s.toList 0 h]

/-- Witness for the hypothesis of `c1_extractor`: the key-absent clause at
a concrete input. -/
theorem c1_extractor_witness :
    extract_rooms_json_from_html "no rooms key in sight" = [] :=
  c1_extractor.2.1 "no rooms key in sight" rfl

/-! ## `scrape.py`: price-text parsing and number formatting -/

/-- Python `float()` applied to a string of digits and at most one dot
(the alphabet left over after the cleaning regex). -/
def pyFloatDigits? (cs : List Char) : Option ℚ :=
  if cs.any (fun c => !(c.isDigit || c = '.')) then none
  else
    match cs.filter (fun c => c = '.') |>.length with
    | 0 => if cs.isEmpty then none else some (digitsToNat cs : ℚ)
    | 1 =>
      let ip := cs.takeWhile (fun c => c ≠ '.')
      let fp := (cs.dropWhile (fun c => c ≠ '.')).drop 1
      if ip.isEmpty && fp.isEmpty then none
      else some ((digitsToNat ip : ℚ) + (digitsToNat fp : ℚ) / ((10 : ℚ) ^ fp.length))
    | _ => none

/-- `extract_price_from_text`: strip every character outside `[\d,.]`,
remove commas, and try `float()`; `None` (or empty) input and parse
failures give `none`. -/
def extract_price_from_text (text : Option String) : Option ℚ :=
  match text with
  | none => none
  | some s =>
    if s = "" then none
    else
      let cleaned := (s.toList.filter (fun c => c.isDigit || c = ',' || c = '.')).filter
        (fun c => c ≠ ',')
      pyFloatDigits? cleaned

/-- Decimal digits of a natural number, most significant first. -/
def natDigits (n : ℕ) : List Char :=
  (Nat.toDigits 10 n)

/-- Insert thousands separators into a digit list given least-significant
first. -/
def commaRev : List Char → List Char
  | a :: b :: c :: d :: rest => a :: b :: c :: ',' :: commaRev (d :: rest)
  | l => l

/-- The f-string `f"ZAR {price:,.2f}"` on the rational model (exact
round-half-to-even at two decimals). -/
def formatZAR (q : ℚ) : String :=
  let cents : ℤ := roundHalfEven (|q| * 100)
  let ip := (cents / 100).toNat
  let fp := (cents % 100).toNat
  let ipStr := String.mk ((commaRev (natDigits ip).reverse).reverse)
  let fpStr := (if fp < 10 then "0" else "") ++ String.mk (natDigits fp)
  "ZAR " ++ (if q < 0 then "-" else "") ++ ipStr ++ "." ++ fpStr

/-- The `price_text` built on the JSON path:
`f"ZAR {price:,.2f}" if price else None`. -/
def jsonPriceText (price : Option ℚ) : Option String :=
  match price with
  | some p => if p ≠ 0 then some (formatZAR p) else none
  | none => none

/-! ## `scrape.py`: `extract_room_details_from_json` -/

/-- Python `float()` on a string: optional surrounding spaces, optional
sign, then digits/dot (the fragment relevant to scraped prices). -/
def pyFloatString? (s : String) : Option ℚ :=
  let cs := (s.toList.dropWhile (· = ' ')).reverse.dropWhile (· = ' ') |>.reverse
  match cs with
  | '-' :: rest => (pyFloatDigits? rest).map (fun q => -q)
  | '+' :: rest => pyFloatDigits? rest
  | _ => pyFloatDigits? cs

/-- Python `float()` on a JSON value (`float` of a list/dict/None raises
`TypeError`, which the source catches alongside `ValueError`). -/
def jfloat? : Json → Option ℚ
  | .num q => some q
  | .bool b => some (if b then 1 else 0)
  | .str s => pyFloatString? s
  | _ => none

/-- A rate block of a room entry: `b_raw_price` if the key is present. -/
structure Block where
  b_raw_price : Option Json

/-- One entry of the `b_rooms_available_and_soldout` array, in the
well-formed dict shape the page delivers. -/
structure Room where
  b_name : Option String
  b_blocks : List Block

/-- The result dict of `extract_room_details_from_json`. -/
structure RoomDetails where
  room_names : List String
  room_prices : List ℚ
  total_room_types : ℤ
  available_room_types : ℤ
  min_room_price : Option ℚ
  max_room_price : Option ℚ
  avg_room_price : Option ℚ
  deriving DecidableEq

/-- The usable price of one room entry: the first block's `b_raw_price`
(defaulting to `''`), kept iff truthy and convertible by `float()`. -/
def blockPrice? (room : Room) : Option ℚ :=
  match room.b_blocks with
  | [] => none
  | b :: _ =>
    let praw := b.b_raw_price.getD (Json.str "")
    if jtruthy praw then jfloat? praw else none

/-- `extract_room_details_from_json`. -/
def extract_room_details_from_json (rooms_data : List Room) : RoomDetails :=
  if rooms_data.isEmpty then
    { room_names := [], room_prices := [], total_room_types := 0,
      available_room_types := 0, min_room_price := none, max_room_price := none,
      avg_room_price := none }
  else
    let room_names := rooms_data.map (fun r => r.b_name.getD "Unknown Room")
    let room_prices := rooms_data.filterMap blockPrice?
    { room_names := room_names, room_prices := room_prices,
      total_room_types := (rooms_data.length : ℤ),
      available_room_types := (room_prices.length : ℤ),
      min_room_price := listMin? room_prices,
      max_room_price := listMax? room_prices,
      avg_room_price :=
        if room_prices.isEmpty then none else some (roundQ2 (qmean room_prices)) }

/-! ## `scrape.py`: DOM signals and `extract_pricing_data`

BeautifulSoup selector results are modelled as pre-extracted signals; the
counting/normalisation logic downstream of the selectors is transliterated. -/

/-- One `tr.js-rt-block-row` room row.  `name_text` is the stripped text of
the room-name element when present; `price_cell` is `none` when the row has
no `.hprt-table-cell-price`, `some none` when the cell has no price
element, and `some (some t)` when a price element with text `t` exists. -/
structure RoomRow where
  name_text : Option String
  price_cell : Option (Option String)

/-- The `#hprt-table` room table. `price_cells` (price-element text per
`.hprt-table-cell-price`, if found) and `roomtype_cell_count` (number of
`.hprt-table-cell-roomtype`-like cells) feed the fallback scan used when
no room rows are found. -/
structure RoomTable where
  room_rows : List RoomRow
  price_cells : List (Option String)
  roomtype_cell_count : ℤ
  fallback_name_texts : List String

/-- Page-level DOM signals consumed by `extract_pricing_data`. -/
structure Dom where
  headline_price_text : Option String
  property_sold_out : Bool
  room_table : Option RoomTable
  original_price_text : Option String

/-- The full parsed-page input: the `b_rooms_available_and_soldout` array
(empty if extraction failed), the `b_all_rooms` entries (each entry's
`b_name` when the value is a dict carrying one), and the DOM signals. -/
structure PageInput where
  rooms_data : List Room
  all_rooms : Option (List (Option String))
  dom : Dom

/-- Room details after the `b_all_rooms` fallback (APPROACH 1B). -/
def effRoomDetails (input : PageInput) : RoomDetails :=
  let rd := extract_room_details_from_json input.rooms_data
  if rd.room_names.isEmpty then
    match input.all_rooms with
    | some entries =>
      let ns := entries.filterMap id
      if ns.isEmpty then rd
      else { rd with room_names := ns, total_room_types := (ns.length : ℤ) }
    | none => rd
  else rd

/-- One step of the room-row scan: every row adds 1 to the total and the
row is available iff its price cell holds a price element, else sold out. -/
def domRowStep (acc : ℤ × ℤ × ℤ × List ℚ × List String) (row : RoomRow) :
    ℤ × ℤ × ℤ × List ℚ × List String :=
  let (t, a, s, ps, ns) := acc
  let ns2 := match row.name_text with
    | some n => if n ≠ "" then ns ++ [n] else ns
    | none => ns
  match row.price_cell with
  | some (some ptxt) =>
    let ps2 := match extract_price_from_text (some ptxt) with
      | some p => if p ≠ 0 then ps ++ [p] else ps
      | none => ps
    (t + 1, a + 1, s, ps2, ns2)
  | some none => (t + 1, a, s + 1, ps, ns2)
  | none => (t + 1, a, s + 1, ps, ns2)

/-- The room-row scan of `extract_pricing_data`. -/
def domRowScan (rows : List RoomRow) : ℤ × ℤ × ℤ × List ℚ × List String :=
  rows.foldl domRowStep (0, 0, 0, [], [])

/-- One step of the price-cell fallback scan: available counts price
elements found in price cells; prices are collected when parseable and
truthy. -/
def domCellStep (acc : ℤ × List ℚ) (cell : Option String) : ℤ × List ℚ :=
  match cell with
  | some ptxt =>
    (acc.1 + 1,
      match extract_price_from_text (some ptxt) with
      | some p => if p ≠ 0 then acc.2 ++ [p] else acc.2
      | none => acc.2)
  | none => acc

/-- The price-cell fallback scan. -/
def domCellScan (cells : List (Option String)) : ℤ × List ℚ :=
  cells.foldl domCellStep (0, [])

/-- `round(sum/len, 2)` over a price list, `none` when empty. -/
def avgPrice? (ps : List ℚ) : Option ℚ :=
  if ps.isEmpty then none else some (roundQ2 (qmean ps))

/-- Mid-level signals of `extract_pricing_data` before the common tail:
availability status, price text, total/available/sold-out room-type
counts, min/max/avg room price, room names. -/
def midOfInput (input : PageInput) :
    String × Option String × ℤ × ℤ × ℤ × Option ℚ × Option ℚ × Option ℚ × List String :=
  let rd := effRoomDetails input
  if !rd.room_names.isEmpty then
    let total := rd.total_room_types
    let avail := rd.available_room_types
    ((if 0 < avail then "available" else "sold_out"),
      jsonPriceText rd.min_room_price, total, avail, total - avail,
      rd.min_room_price, rd.max_room_price, rd.avg_room_price, rd.room_names)
  else
    match input.dom.room_table with
    | some tbl =>
      if tbl.room_rows.isEmpty then
        let (avail, prices) := domCellScan tbl.price_cells
        let total := tbl.roomtype_cell_count
        ((if 0 < avail then "available" else "sold_out"),
          input.dom.headline_price_text, total, avail, max 0 (total - avail),
          listMin? prices, listMax? prices, avgPrice? prices,
          tbl.fallback_name_texts.filter (fun n => n ≠ ""))
      else
        let (total, avail, sold, prices, names) := domRowScan tbl.room_rows
        ((if 0 < avail then "available" else "sold_out"),
          input.dom.headline_price_text, total, avail, sold,
          listMin? prices, listMax? prices, avgPrice? prices, names)
    | none =>
      ((if input.dom.property_sold_out then "sold_out" else "available"),
        input.dom.headline_price_text, 0, 0, 0, none, none, none, [])

/-- The normalized output record of `extract_pricing_data` (the fields the
claims speak about; the raw rating/review strings are omitted).  Room
fields are `Option` because the error record of `fetch_pricing_for_date`
carries no room keys at all. -/
structure PricingRecord where
  hotel_slug : String
  check_in_date : String
  check_out_date : String
  nights : ℤ
  availability : String
  total_price : Option ℚ
  original_price : Option ℚ
  price_per_night : Option ℚ
  has_discount : Option Bool
  discount_percentage : Option ℚ
  total_room_types : Option ℤ
  available_room_types : Option ℤ
  sold_out_room_types : Option ℤ
  property_occupancy_rate : Option ℚ
  min_room_price : Option ℚ
  max_room_price : Option ℚ
  avg_room_price : Option ℚ
  room_names : Option String
  deriving DecidableEq

/-- `extract_pricing_data`. -/
def extract_pricing_data (input : PageInput) (slug check_in check_out : String)
    (nights : ℤ) : PricingRecord :=
  let (avb, priceTxt, total, avail, sold, minp, maxp, avgp, names) := midOfInput input
  let original_price := extract_price_from_text input.dom.original_price_text
  let price := extract_price_from_text priceTxt
  let price_per_night := match price with
    | some p => if p ≠ 0 ∧ 0 < nights then some (p / (nights : ℚ)) else none
    | none => none
  let has_discount : Bool := match original_price, price with
    | some o, some p => decide (p < o)
    | _, _ => false
  let discount_percentage := if has_discount then
      (match original_price, price with
        | some o, some p => some (roundQ2 ((o - p) / o * 100))
        | _, _ => none)
    else none
  { hotel_slug := slug, check_in_date := check_in, check_out_date := check_out,
    nights := nights, availability := avb, total_price := price,
    original_price := original_price, price_per_night := price_per_night,
    has_discount := some has_discount, discount_percentage := discount_percentage,
    total_room_types := some total, available_room_types := some avail,
    sold_out_room_types := some sold,
    property_occupancy_rate :=
      if 0 < total then some (roundQ2 ((sold : ℚ) / (total : ℚ) * 100)) else none,
    min_room_price := minp, max_room_price := maxp, avg_room_price := avgp,
    room_names := some (String.intercalate ", " names) }

theorem domRowScan_total_eq (rows : List RoomRow)
    (acc : ℤ × ℤ × ℤ × List ℚ × List String) (h : acc.1 = acc.2.1 + acc.2.2.1) :
    (rows.foldl domRowStep acc).1 =
      (rows.foldl domRowStep acc).2.1 + (rows.foldl domRowStep acc).2.2.1 := by
  induction rows generalizing acc with
  | nil => exact h
  | cons row rest ih =>
    rw [List.foldl_cons]
    refine ih (domRowStep acc row) ?_
    obtain ⟨t, a, s, ps, ns⟩ := acc
    obtain ⟨nt, pc⟩ := row
    simp only at h
    rcases pc with _ | (_ | ptxt) <;> simp only [domRowStep] <;> omega

theorem availCount_le_total (rooms : List Room) :
    ((rooms.filterMap blockPrice?).length : ℤ) ≤ (rooms.length : ℤ) := by
  exact_mod_cast List.length_filterMap_le blockPrice? rooms

/-- Projections of `extract_pricing_data` in terms of `midOfInput`. -/
theorem extract_pricing_data_fields (input : PageInput) (slug ci co : String)
    (nights : ℤ) :
    (extract_pricing_data input slug ci co nights).availability = (midOfInput input).1 ∧
    (extract_pricing_data input slug ci co nights).total_price =
      extract_price_from_text (midOfInput input).2.1 ∧
    (extract_pricing_data input slug ci co nights).total_room_types =
      some (midOfInput input).2.2.1 ∧
    (extract_pricing_data input slug ci co nights).available_room_types =
      some (midOfInput input).2.2.2.1 ∧
    (extract_pricing_data input slug ci co nights).sold_out_room_types =
      some (midOfInput input).2.2.2.2.1 ∧
    (extract_pricing_data input slug ci co nights).min_room_price =
      (midOfInput input).2.2.2.2.2.1 :=
  ⟨rfl, rfl, rfl, rfl, rfl, rfl⟩

/-! ### Claim C4 -/

/-- A page with no rooms JSON whose room table has no room rows, three
price cells carrying price elements, but only two room-type cells: the
price-cell fallback counts `available` and `total` from independent
selectors. -/
def c4Table : RoomTable :=
  { room_rows := [],
    price_cells := [some "R 100", some "R 120", some "R 130"],
    roomtype_cell_count := 2,
    fallback_name_texts := [] }

def c4Input : PageInput :=
  { rooms_data := [],
    all_rooms := none,
    dom :=
      { headline_price_text := none,
        property_sold_out := false,
        room_table := some c4Table,
        original_price_text := none } }

/-- Counterexample to C4 as stated: on the DOM price-cell fallback path,
`extract_pricing_data` can produce `total_room_types = 2 > 0` with
`available_room_types = 3` and `sold_out_room_types = max(0, 2-3) = 0`,
so `available + sold_out ≠ total`. -/
theorem c4_counterexample :
    (extract_pricing_data c4Input "s" "2026-01-01" "2026-01-02" 1).total_room_types
        = some 2 ∧
    (extract_pricing_data c4Input "s" "2026-01-01" "2026-01-02" 1).available_room_types
        = some 3 ∧
    (extract_pricing_data c4Input "s" "2026-01-01" "2026-01-02" 1).sold_out_room_types
        = some 0 ∧
    (3 : ℤ) + 0 ≠ 2 :=
  ⟨rfl, rfl, rfl, by decide⟩

/-- C4 (amended): `available_room_types + sold_out_room_types =
total_room_types` holds unconditionally on the JSON room-listing path and
on the DOM room-row path; on the DOM price-cell fallback — where the two
counts come from independent selectors — it holds exactly under the extra
guard `available ≤ total` (sold-out is floored at `max 0 (total −
available)`); with no room table at all, every count is zero, so the
`total_room_types > 0` premise of the original claim never fires there. -/
theorem c4_invariant (input : PageInput) (slug ci co : String) (nights : ℤ) :
    ((effRoomDetails input).room_names ≠ [] →
      (extract_pricing_data input slug ci co nights).available_room_types.getD 0 +
        (extract_pricing_data input slug ci co nights).sold_out_room_types.getD 0 =
        (extract_pricing_data input slug ci co nights).total_room_types.getD 0) ∧
    (∀ tbl, (effRoomDetails input).room_names = [] →
      input.dom.room_table = some tbl → tbl.room_rows ≠ [] →
      (extract_pricing_data input slug ci co nights).available_room_types.getD 0 +
        (extract_pricing_data input slug ci co nights).sold_out_room_types.getD 0 =
        (extract_pricing_data input slug ci co nights).total_room_types.getD 0) ∧
    (∀ tbl, (effRoomDetails input).room_names = [] →
      input.dom.room_table = some tbl → tbl.room_rows = [] →
      (extract_pricing_data input slug ci co nights).available_room_types.getD 0 ≤
        (extract_pricing_data input slug ci co nights).total_room_types.getD 0 →
      (extract_pricing_data input slug ci co nights).available_room_types.getD 0 +
        (extract_pricing_data input slug ci co nights).sold_out_room_types.getD 0 =
        (extract_pricing_data input slug ci co nights).total_room_types.getD 0) ∧
    ((effRoomDetails input).room_names = [] → input.dom.room_table = none →
      (extract_pricing_data input slug ci co nights).total_room_types = some 0) := by
  obtain ⟨-, -, ht, ha, hs, -⟩ := extract_pricing_data_fields input slug ci co nights
  rw [ht, ha, hs]
  simp only [Option.getD_some]
  refine ⟨?_, ?_, ?_, ?_⟩
  · intro h
    have hne : (effRoomDetails input).room_names.isEmpty = false := by
      simpa [List.isEmpty_iff] using h
    simp only [midOfInput, hne, Bool.not_false, if_true]
    omega
  · intro tbl h htbl hrows
    have hemp : (effRoomDetails input).room_names.isEmpty = true := by
      simp [List.isEmpty_iff, h]
    have hrne : tbl.room_rows.isEmpty = false := by
      simpa [List.isEmpty_iff] using hrows
    simp only [midOfInput, hemp, Bool.not_true, if_false, htbl, hrne]
    exact (domRowScan_total_eq tbl.room_rows (0, 0, 0, [], []) rfl).symm
  · intro tbl h htbl hrows hle
    have hemp : (effRoomDetails input).room_names.isEmpty = true := by
      simp [List.isEmpty_iff, h]
    have hre : tbl.room_rows.isEmpty = true := by simp [List.isEmpty_iff, hrows]
    simp [midOfInput, hemp, htbl, hre] at hle ⊢
    omega
  · intro h htbl
    have hemp : (effRoomDetails input).room_names.isEmpty = true := by
      simp [List.isEmpty_iff, h]
    simp [midOfInput, hemp, htbl]

/-- A page whose rooms JSON has two room entries, one bookable. -/
def c4JsonInput : PageInput :=
  { rooms_data :=
      [{ b_name := some "Suite", b_blocks := [{ b_raw_price := some (Json.num 900) }] },
       { b_name := some "Villa", b_blocks := [] }],
    all_rooms := none,
    dom :=
      { headline_price_text := none,
        property_sold_out := false,
        room_table := none,
        original_price_text := none } }

/-- Witness for `c4_invariant`: the JSON-path clause evaluated on a page
with two room entries, one bookable. -/
theorem c4_invariant_witness :
    (extract_pricing_data c4JsonInput "s" "2026-01-01" "2026-01-03" 2).available_room_types.getD 0 +
      (extract_pricing_data c4JsonInput "s" "2026-01-01" "2026-01-03" 2).sold_out_room_types.getD 0 =
      (extract_pricing_data c4JsonInput "s" "2026-01-01" "2026-01-03" 2).total_room_types.getD 0 :=
  (c4_invariant c4JsonInput "s" "2026-01-01" "2026-01-03" 2).1 (by decide)

/-! ### Claim C5 -/

/-- Available-room count of the DOM paths (rows when present, else the
price-cell fallback). -/
def domAvail (tbl : RoomTable) : ℤ :=
  if tbl.room_rows.isEmpty then (domCellScan tbl.price_cells).1
  else (domRowScan tbl.room_rows).2.1

/-- A room table with two priced room rows (R 200, R 100). -/
def c5Table : RoomTable :=
  { room_rows :=
      [{ name_text := some "A", price_cell := some (some "R 200") },
       { name_text := some "B", price_cell := some (some "R 100") }],
    price_cells := [],
    roomtype_cell_count := 0,
    fallback_name_texts := [] }

/-- A page with no rooms JSON, a DOM room table with per-room prices 200
and 100, and a headline price of 150. -/
def c5Input : PageInput :=
  { rooms_data := [],
    all_rooms := none,
    dom :=
      { headline_price_text := some "R 150",
        property_sold_out := false,
        room_table := some c5Table,
        original_price_text := none } }

/-- Counterexample to C5 as stated: on the DOM path the overall total
price is the headline price even though room-level prices exist — here
room prices 200 and 100 are discovered (min 100) yet the record's total
price is the headline 150. -/
theorem c5_counterexample :
    (extract_pricing_data c5Input "s" "2026-01-01" "2026-01-02" 1).availability
        = "available" ∧
    (extract_pricing_data c5Input "s" "2026-01-01" "2026-01-02" 1).min_room_price
        = some 100 ∧
    (extract_pricing_data c5Input "s" "2026-01-01" "2026-01-02" 1).total_price
        = some 150 ∧
    (some (150 : ℚ) : Option ℚ) ≠ some 100 :=
  ⟨rfl, rfl, rfl, by decide⟩

/-- C5 (amended): on the JSON room-listing path, availability is
`available` iff at least one room type has a usable price
(`available_room_types > 0`) and the total price is the minimum
discovered per-room price carried through the 2-decimal `ZAR` text
round-trip (`None` when the minimum is 0 or absent).  On the DOM path the
total price is always the headline price — even when room-level prices
were discovered; availability is `available` iff the room table shows an
available room type when a table exists, and with no room table it
defaults to `available` unless property-level sold-out indicators fired. -/
theorem c5_availability_price (input : PageInput) (slug ci co : String) (nights : ℤ) :
    ((effRoomDetails input).room_names ≠ [] →
      ((extract_pricing_data input slug ci co nights).availability = "available" ↔
        0 < (effRoomDetails input).available_room_types) ∧
      (extract_pricing_data input slug ci co nights).total_price =
        extract_price_from_text (jsonPriceText (effRoomDetails input).min_room_price)) ∧
    ((effRoomDetails input).room_names = [] →
      (extract_pricing_data input slug ci co nights).total_price =
        extract_price_from_text input.dom.headline_price_text ∧
      (∀ tbl, input.dom.room_table = some tbl →
        ((extract_pricing_data input slug ci co nights).availability = "available" ↔
          0 < domAvail tbl)) ∧
      (input.dom.room_table = none →
        (extract_pricing_data input slug ci co nights).availability =
          (if input.dom.property_sold_out then "sold_out" else "available"))) := by
  obtain ⟨hav, hp, -, -, -, -⟩ := extract_pricing_data_fields input slug ci co nights
  rw [hav, hp]
  constructor
  · intro h
    have hne : (effRoomDetails input).room_names.isEmpty = false := by
      simpa [List.isEmpty_iff] using h
    simp only [midOfInput, hne, Bool.not_false, if_true]
    constructor
    · by_cases h0 : 0 < (effRoomDetails input).available_room_types
      · simp [h0]
      · simp [h0]
    · trivial
  · intro h
    have hemp : (effRoomDetails input).room_names.isEmpty = true := by
      simp [List.isEmpty_iff, h]
    refine ⟨?_, ?_, ?_⟩
    · cases htbl : input.dom.room_table with
      | none => simp [midOfInput, hemp, htbl]
      | some tbl =>
        by_cases hre : tbl.room_rows.isEmpty <;>
          simp [midOfInput, hemp, htbl, hre]
    · intro tbl htbl
      by_cases hre : tbl.room_rows.isEmpty
      · simp only [midOfInput, hemp, Bool.not_true, if_false, htbl, domAvail, hre, if_true]
        by_cases h0 : 0 < (domCellScan tbl.price_cells).1
        · simp [h0]
        · simp [h0]
      · have hre2 : tbl.room_rows.isEmpty = false := by simpa using hre
        simp only [midOfInput, hemp, Bool.not_true, if_false, htbl, domAvail, hre2]
        by_cases h0 : 0 < (domRowScan tbl.room_rows).2.1
        · simp [h0]
        · simp [h0]
    · intro htbl
      simp [midOfInput, hemp, htbl]

/-- Witness for `c5_availability_price`: the DOM-table clause evaluated on
the two-row page above. -/
theorem c5_availability_price_witness :
    (extract_pricing_data c5Input "s" "2026-01-01" "2026-01-02" 1).availability
        = "available" ↔ 0 < domAvail c5Table :=
  ((c5_availability_price c5Input "s" "2026-01-01" "2026-01-02" 1).2
    (by decide)).2.1 c5Table rfl

/-! ## `scrape.py`: `fetch_pricing_for_date` and the per-property date loop

The browser fetch is abstracted as an `Except`: `.ok page` is the parsed
page content, `.error` any exception raised while fetching/rendering.  The
`try/except` of `fetch_pricing_for_date` catches every exception and
returns the error record, so the Lean model is total. -/

/-- The error record built in the `except` branch: `availability = error`
and every derived price field `None`; the room-count keys are absent from
the Python dict, modelled as `none`. -/
def errorRecord (slug check_in check_out : String) (nights : ℤ) : PricingRecord :=
  { hotel_slug := slug, check_in_date := check_in, check_out_date := check_out,
    nights := nights, availability := "error", total_price := none,
    original_price := none, price_per_night := none, has_discount := none,
    discount_percentage := none, total_room_types := none,
    available_room_types := none, sold_out_room_types := none,
    property_occupancy_rate := none, min_room_price := none,
    max_room_price := none, avg_room_price := none, room_names := none }

/-- `fetch_pricing_for_date`: parse the fetched page, or convert any
raised exception into the error record. -/
def fetch_pricing_for_date (fetched : Except Unit PageInput)
    (slug check_in check_out : String) (nights : ℤ) : PricingRecord :=
  match fetched with
  | .ok page => extract_pricing_data page slug check_in check_out nights
  | .error _ => errorRecord slug check_in check_out nights

/-- One (check-in, check-out, stay-length) combination of the date loop. -/
structure DateCombo where
  check_in : String
  check_out : String
  nights : ℤ
  deriving DecidableEq

/-- The date loop of `fetch_all_pricing`: every combination yields exactly
one record, in order; an error outcome for one date never aborts the
remaining dates. -/
def fetch_all_pricing (fetched : DateCombo → Except Unit PageInput)
    (slug : String) (combos : List DateCombo) : List PricingRecord :=
  combos.map (fun c => fetch_pricing_for_date (fetched c) slug c.check_in c.check_out c.nights)

/-! ### Claim C10 -/

/-- C10: when the fetch for one (property, check-in date) combination
raises, `fetch_pricing_for_date` returns — never raises — a record with
`availability = error` and all derived price/room fields null, and the
date loop still produces one record per combination (the property
continues to its next date; the run is not aborted). -/
theorem c10_fetch_error (fetched : DateCombo → Except Unit PageInput)
    (slug : String) (combos : List DateCombo) (c : DateCombo)
    (hc : c ∈ combos) (herr : fetched c = Except.error ()) :
    (fetch_all_pricing fetched slug combos).length = combos.length ∧
    ∃ r ∈ fetch_all_pricing fetched slug combos,
      r.hotel_slug = slug ∧ r.check_in_date = c.check_in ∧
      r.availability = "error" ∧ r.total_price = none ∧
      r.original_price = none ∧ r.price_per_night = none ∧
      r.has_discount = none ∧ r.discount_percentage = none ∧
      r.total_room_types = none ∧ r.available_room_types = none ∧
      r.sold_out_room_types = none ∧ r.property_occupancy_rate = none ∧
      r.min_room_price = none ∧ r.max_room_price = none ∧
      r.avg_room_price = none ∧ r.room_names = none := by
  refine ⟨by simp [fetch_all_pricing], ?_⟩
  refine ⟨fetch_pricing_for_date (fetched c) slug c.check_in c.check_out c.nights,
    List.mem_map.mpr ⟨c, hc, rfl⟩, ?_⟩
  rw [herr]
  exact ⟨rfl, rfl, rfl, rfl, rfl, rfl, rfl, rfl, rfl, rfl, rfl, rfl, rfl, rfl, rfl, rfl⟩

/-- Witness for `c10_fetch_error`: a two-date loop where the second date's
fetch raises. -/
theorem c10_fetch_error_witness :
    (fetch_all_pricing
        (fun c => if c.check_in = "2026-01-02" then Except.error () else
          Except.ok { rooms_data := [], all_rooms := none,
                      dom := { headline_price_text := none, property_sold_out := false,
                               room_table := none, original_price_text := none } })
        "villa"
        [{ check_in := "2026-01-01", check_out := "2026-01-03", nights := 2 },
         { check_in := "2026-01-02", check_out := "2026-01-04", nights := 2 }]).length = 2 ∧
    ∃ r ∈ fetch_all_pricing
        (fun c => if c.check_in = "2026-01-02" then Except.error () else
          Except.ok { rooms_data := [], all_rooms := none,
                      dom := { headline_price_text := none, property_sold_out := false,
                               room_table := none, original_price_text := none } })
        "villa"
        [{ check_in := "2026-01-01", check_out := "2026-01-03", nights := 2 },
         { check_in := "2026-01-02", check_out := "2026-01-04", nights := 2 }],
      r.hotel_slug = "villa" ∧ r.check_in_date = "2026-01-02" ∧
      r.availability = "error" ∧ r.total_price = none ∧
      r.original_price = none ∧ r.price_per_night = none ∧
      r.has_discount = none ∧ r.discount_percentage = none ∧
      r.total_room_types = none ∧ r.available_room_types = none ∧
      r.sold_out_room_types = none ∧ r.property_occupancy_rate = none ∧
      r.min_room_price = none ∧ r.max_room_price = none ∧
      r.avg_room_price = none ∧ r.room_names = none :=
  c10_fetch_error _ "villa" _
    { check_in := "2026-01-02", check_out := "2026-01-04", nights := 2 }
    (by decide) (by rfl)

/-! ## `scrape.py`: daily-progress session tracking -/

/-- One entry of the hotels configuration. -/
structure Hotel where
  slug : String
  name : String
  deriving DecidableEq

/-- The persisted daily-progress document.  `load_daily_progress` returns
`{"date": None, "completed_properties": []}` when the file is absent or
unreadable, so `date` is an `Option`. -/
structure ProgressState where
  date : Option String
  completed_properties : List String
  deriving DecidableEq

/-- `save_daily_progress`: the document persisted after a property
completes (the wall-clock `last_updated` timestamp is omitted). -/
def save_daily_progress (today : String) (completed : List String) : ProgressState :=
  { date := some today, completed_properties := completed }

/-- `get_properties_to_scrape`: returns the properties still to scrape,
the already-completed identifiers, and the new-day (archive) flag. -/
def get_properties_to_scrape (progress : ProgressState) (today : String)
    (all_hotels : List Hotel) : List Hotel × List String × Bool :=
  if progress.date ≠ some today then (all_hotels, [], true)
  else
    let completed := progress.completed_properties
    if all_hotels.length ≤ completed.length then ([], completed, false)
    else (all_hotels.filter (fun h => decide (h.slug ∉ completed)), completed, false)

/-! ### Claim C6 -/

/-- Counterexample to C6 as stated: the Done branch triggers on
`len(completed) >= len(all_hotels)` rather than on set coverage.  With
today's date stored and completed identifiers `["x", "y"]` that match
none of the two configured properties — partial (indeed empty) coverage —
the function returns the empty list instead of the uncovered properties. -/
theorem c6_counterexample :
    get_properties_to_scrape
        { date := some "2026-10-12", completed_properties := ["x", "y"] }
        "2026-10-12"
        [{ slug := "a", name := "A" }, { slug := "b", name := "B" }] =
      ([], ["x", "y"], false) ∧
    ([{ slug := "a", name := "A" }, { slug := "b", name := "B" }] :
        List Hotel).filter
        (fun h => decide (h.slug ∉ (["x", "y"] : List String))) =
      [{ slug := "a", name := "A" }, { slug := "b", name := "B" }] ∧
    ([] : List Hotel) ≠ [{ slug := "a", name := "A" }, { slug := "b", name := "B" }] :=
  ⟨rfl, rfl, by decide⟩

/-- C6 (amended): when the stored progress date differs from today (or no
progress exists) the full property list is returned with the archive flag
set and the prior completed-set discarded; when the dates match, the Done
branch (empty list, no archive) triggers exactly when the completed
list's *length* reaches the property count — regardless of which
identifiers it holds — and otherwise the function returns exactly the
properties whose slug is not in the completed list, in order. -/
theorem c6_transition (progress : ProgressState) (today : String)
    (all_hotels : List Hotel) :
    (progress.date ≠ some today →
      get_properties_to_scrape progress today all_hotels = (all_hotels, [], true)) ∧
    (progress.date = some today →
      all_hotels.length ≤ progress.completed_properties.length →
      get_properties_to_scrape progress today all_hotels =
        ([], progress.completed_properties, false)) ∧
    (progress.date = some today →
      progress.completed_properties.length < all_hotels.length →
      get_properties_to_scrape progress today all_hotels =
        (all_hotels.filter (fun h => decide (h.slug ∉ progress.completed_properties)),
          progress.completed_properties, false)) := by
  refine ⟨fun h => ?_, fun h hle => ?_, fun h hlt => ?_⟩
  · simp [get_properties_to_scrape, h]
  · simp [get_properties_to_scrape, h, hle]
  · simp [get_properties_to_scrape, h, Nat.not_le.mpr hlt]

/-- Witness for `c6_transition`: the resume scenario of the spec —
completed `[A, B]` out of `[A, B, C, D]` yields remaining `[C, D]`. -/
theorem c6_transition_witness :
    get_properties_to_scrape
        { date := some "2026-10-12", completed_properties := ["a", "b"] }
        "2026-10-12"
        [{ slug := "a", name := "A" }, { slug := "b", name := "B" },
         { slug := "c", name := "C" }, { slug := "d", name := "D" }] =
      ([{ slug := "c", name := "C" }, { slug := "d", name := "D" }],
        ["a", "b"], false) := by
  have h := (c6_transition
    { date := some "2026-10-12", completed_properties := ["a", "b"] }
    "2026-10-12"
    [{ slug := "a", name := "A" }, { slug := "b", name := "B" },
     { slug := "c", name := "C" }, { slug := "d", name := "D" }]).2.2 rfl (by decide)
  rw [h]
  decide

/-! ### Claim C7 — the per-property loop of `main`

`fetch_all_pricing` for one property is abstracted into an outcome:
`success` (records returned), `nodata` (empty result), or `err` (an
exception escaping the per-property `try`).  The loop body appends the
slug to the completed list and persists the progress document in both the
success and the no-data branch; the `except` branch persists nothing and
`break`s out of the loop. -/

inductive FetchOutcome where
  | success : FetchOutcome
  | nodata : FetchOutcome
  | err : FetchOutcome
  deriving DecidableEq

/-- The per-property loop of `main`, returning the final completed list
and the sequence of progress documents persisted, in order. -/
def scrapeLoop (outcome : String → FetchOutcome) (today : String) :
    List Hotel → List String → List String × List ProgressState
  | [], completed => (completed, [])
  | h :: rest, completed =>
    match outcome h.slug with
    | .err => (completed, [])
    | _ =>
      let completed2 := completed ++ [h.slug]
      let (fin, saves) := scrapeLoop outcome today rest completed2
      (fin, save_daily_progress today completed2 :: saves)

/-- The progress documents a run persists while completing `slugs` in
order starting from `start`: one snapshot per finished property, each
extending the previous by exactly that property. -/
def progressSnapshots (today : String) (start : List String) :
    List String → List ProgressState
  | [] => []
  | s :: rest =>
    save_daily_progress today (start ++ [s]) ::
      progressSnapshots today (start ++ [s]) rest

theorem scrapeLoop_no_error (outcome : String → FetchOutcome) (today : String)
    (hs : List Hotel) (c0 : List String)
    (h : ∀ x ∈ hs, outcome x.slug ≠ FetchOutcome.err) :
    scrapeLoop outcome today hs c0 =
      (c0 ++ hs.map (fun x => x.slug),
        progressSnapshots today c0 (hs.map (fun x => x.slug))) := by
  induction hs generalizing c0 with
  | nil => simp [scrapeLoop, progressSnapshots]
  | cons x rest ih =>
    have hx : outcome x.slug ≠ FetchOutcome.err := h x (List.mem_cons_self x rest)
    have hrest : ∀ y ∈ rest, outcome y.slug ≠ FetchOutcome.err :=
      fun y hy => h y (List.mem_cons_of_mem x hy)
    rw [scrapeLoop]
    cases ho : outcome x.slug with
    | err => exact absurd ho hx
    | success =>
      simp [ih (c0 ++ [x.slug]) hrest, progressSnapshots]
    | nodata =>
      simp [ih (c0 ++ [x.slug]) hrest, progressSnapshots]

/-- C7: after each property finishes — with data (`success`) or with none
(`nodata`) — its identifier is appended to the completed list and a
progress document containing it is persisted immediately (the snapshot
sequence grows by exactly one document per finished property, each
extending the previous by that property); when a property raises, its
identifier is not appended, no document is persisted for it, and the
remaining properties are aborted: the run's result is exactly that of the
error-free prefix. -/
theorem c7_progress (outcome : String → FetchOutcome) (today : String)
    (pre : List Hotel) (e : Hotel) (post : List Hotel) (c0 : List String)
    (hpre : ∀ x ∈ pre, outcome x.slug ≠ FetchOutcome.err)
    (herr : outcome e.slug = FetchOutcome.err) :
    scrapeLoop outcome today (pre ++ e :: post) c0 =
      (c0 ++ pre.map (fun x => x.slug),
        progressSnapshots today c0 (pre.map (fun x => x.slug))) ∧
    (∀ hs, (∀ x ∈ hs, outcome x.slug ≠ FetchOutcome.err) →
      scrapeLoop outcome today hs c0 =
        (c0 ++ hs.map (fun x => x.slug),
          progressSnapshots today c0 (hs.map (fun x => x.slug)))) := by
  refine ⟨?_, fun hs h => scrapeLoop_no_error outcome today hs c0 h⟩
  induction pre generalizing c0 with
  | nil =>
    rw [List.nil_append, scrapeLoop, herr]
    simp [progressSnapshots]
  | cons x rest ih =>
    have hx : outcome x.slug ≠ FetchOutcome.err := hpre x (List.mem_cons_self x rest)
    have hrest : ∀ y ∈ rest, outcome y.slug ≠ FetchOutcome.err :=
      fun y hy => hpre y (List.mem_cons_of_mem x hy)
    rw [List.cons_append, scrapeLoop]
    cases ho : outcome x.slug with
    | err => exact absurd ho hx
    | success =>
      simp [ih (c0 ++ [x.slug]) hrest, progressSnapshots]
    | nodata =>
      simp [ih (c0 ++ [x.slug]) hrest, progressSnapshots]

/-- Witness for `c7_progress`: properties A, B succeed, C raises, D is
never reached; the persisted snapshots are exactly `[A]` then `[A, B]`. -/
theorem c7_progress_witness :
    scrapeLoop
        (fun s => if s = "c" then FetchOutcome.err else FetchOutcome.success)
        "2026-10-12"
        [{ slug := "a", name := "A" }, { slug := "b", name := "B" },
         { slug := "c", name := "C" }, { slug := "d", name := "D" }]
        [] =
      (["a", "b"],
        [save_daily_progress "2026-10-12" ["a"],
         save_daily_progress "2026-10-12" ["a", "b"]]) := by
  have h := (c7_progress
    (fun s => if s = "c" then FetchOutcome.err else FetchOutcome.success)
    "2026-10-12"
    [{ slug := "a", name := "A" }, { slug := "b", name := "B" }]
    { slug := "c", name := "C" }
    [{ slug := "d", name := "D" }]
    []
    (by decide) (by decide)).1
  simpa [progressSnapshots] using h

/-! ## `analyze.py`: the loaded data frame

One CSV row with the columns the analysed claims read.  `Option ℚ` fields
model NaN/missing values. -/

structure Row where
  hotel_name : String
  check_in_date : String
  availability : String
  nights : Option ℚ
  total_price : Option ℚ
  price_per_night : Option ℚ
  min_room_price : Option ℚ
  max_room_price : Option ℚ
  avg_room_price : Option ℚ
  total_room_types : Option ℚ
  available_room_types : Option ℚ
  deriving DecidableEq

/-- `df['hotel_name'].unique()`: hotel names in order of first occurrence. -/
def uniqueNamesGo (seen : List String) : List Row → List String
  | [] => []
  | r :: rest =>
    if r.hotel_name ∈ seen then uniqueNamesGo seen rest
    else r.hotel_name :: uniqueNamesGo (r.hotel_name :: seen) rest

def uniqueNames (df : List Row) : List String := uniqueNamesGo [] df

/-- `sort_values('check_in_date')` comparison. -/
def dateLe (a b : Row) : Bool := decide (a.check_in_date ≤ b.check_in_date)

/-! ## `analyze.py`: `calculate_occupancy_metrics` -/

/-- One entry of `room_samples` in `calculate_occupancy_metrics`. -/
structure OccSample where
  total_raw : Option ℚ
  total : Option ℚ
  available : Option ℚ
  deriving DecidableEq

/-- The first per-row loop of `calculate_occupancy_metrics`: carry the
last known positive `total_room_types` forward; a row with neither a
usable total nor a usable available signal is skipped. -/
def occSamplesGo (carry : Option ℚ) : List Row → List OccSample
  | [] => []
  | r :: rest =>
    let traw := r.total_room_types
    let pos : Bool := match traw with
      | some v => decide (0 < v)
      | none => false
    let carry2 := if pos then traw else carry
    let total : Option ℚ := if pos then traw else carry
    let available : Option ℚ :=
      match r.available_room_types with
      | some a => some a
      | none =>
        if r.availability = "sold_out" then some 0
        else match total with
          | some t => some t
          | none => none
    if total.isNone && available.isNone then occSamplesGo carry2 rest
    else { total_raw := traw, total := total, available := available } ::
      occSamplesGo carry2 rest

/-- `room_type_estimate = max(totals_observed)` over the retained samples. -/
def occEstimate (samples : List OccSample) : Option ℚ :=
  listMax? (samples.filterMap (fun s => s.total_raw))

/-- One clamped, contributing sample of the second loop. -/
structure EffSample where
  total : ℚ
  available : ℚ
  sold : ℚ
  occ : ℚ
  deriving DecidableEq

/-- The second loop of `calculate_occupancy_metrics`: prefer the
room-type estimate as the effective total, clamp available into
`[0, total];` skip samples without a positive total or an available
signal. -/
def occContrib (est : Option ℚ) : List OccSample → List EffSample
  | [] => []
  | s :: rest =>
    let tfc : Option ℚ := match est with
      | some e => some e
      | none => s.total
    match tfc with
    | none => occContrib est rest
    | some t =>
      if t ≤ 0 then occContrib est rest
      else match s.available with
        | none => occContrib est rest
        | some a0 =>
          let a := min (max a0 0) t
          let sold := max (t - a) 0
          { total := t, available := a, sold := sold,
            occ := if 0 < t then sold / t * 100 else 0 } :: occContrib est rest

/-- One output row of `calculate_occupancy_metrics`. -/
structure OccMetric where
  hotel_name : String
  total_checks : ℕ
  available : ℕ
  sold_out : ℕ
  occupancy_rate : ℚ
  availability_rate : ℚ
  preferred_occupancy_rate : ℚ
  preferred_occupancy_source : String
  property_occupancy_rate : ℚ
  room_type_count_estimate : Option ℚ
  avg_total_room_types : ℚ
  avg_available_room_types : ℚ
  avg_sold_out_room_types : ℚ
  avg_room_occupancy_rate : ℚ
  deriving DecidableEq, Inhabited

/-- `room_samples` of one hotel's history. -/
def occSamples (rows : List Row) : List OccSample := occSamplesGo none rows

/-- `room_type_estimate` of one hotel's history. -/
def occEst (rows : List Row) : Option ℚ := occEstimate (occSamples rows)

/-- The contributing clamped samples of one hotel's history. -/
def occContribOf (rows : List Row) : List EffSample :=
  occContrib (occEst rows) (occSamples rows)

/-- `avg_room_occupancy` (0 when no sample contributes). -/
def occAvgRoomOcc (rows : List Row) : ℚ :=
  if (occContribOf rows).isEmpty then 0
  else qmean ((occContribOf rows).map (fun s => s.occ))

/-- `property_occ_rate`: fraction of checks sold out, as a percentage. -/
def occPropRate (rows : List Row) : ℚ :=
  if 0 < rows.length then
    ((rows.filter (fun r => decide (r.availability = "sold_out"))).length : ℚ) /
      (rows.length : ℚ) * 100
  else 0

/-- `has_room_signal and avg_room_occupancy > 0`, the preference guard. -/
def occCond (rows : List Row) : Bool :=
  ((match occEst rows with
    | some e => decide (1 < e)
    | none => false) && !(occContribOf rows).isEmpty) &&
    decide (0 < occAvgRoomOcc rows)

/-- The per-hotel body of `calculate_occupancy_metrics`. -/
def occMetricsForHotel (hotel : String) (rows : List Row) : OccMetric :=
  let total_checks := rows.length
  let available_checks := (rows.filter (fun r => decide (r.availability = "available"))).length
  let sold_out_checks := (rows.filter (fun r => decide (r.availability = "sold_out"))).length
  let contrib := occContribOf rows
  let totalsForAvg := (occSamples rows).filterMap (fun s => s.total)
  let avg_total : ℚ := match occEst rows with
    | some e => e
    | none => if totalsForAvg.isEmpty then 0 else qmean totalsForAvg
  let avg_avail : ℚ := if contrib.isEmpty then 0 else qmean (contrib.map (fun s => s.available))
  let avg_sold : ℚ := if contrib.isEmpty then 0 else qmean (contrib.map (fun s => s.sold))
  let avail_rate : ℚ :=
    if 0 < total_checks then (available_checks : ℚ) / (total_checks : ℚ) * 100 else 0
  { hotel_name := hotel, total_checks := total_checks,
    available := available_checks, sold_out := sold_out_checks,
    occupancy_rate := occPropRate rows, availability_rate := avail_rate,
    preferred_occupancy_rate :=
      if occCond rows then occAvgRoomOcc rows else occPropRate rows,
    preferred_occupancy_source := if occCond rows then "room" else "property",
    property_occupancy_rate := occPropRate rows,
    room_type_count_estimate := occEst rows,
    avg_total_room_types := avg_total,
    avg_available_room_types := avg_avail,
    avg_sold_out_room_types := avg_sold,
    avg_room_occupancy_rate := occAvgRoomOcc rows }

/-- Descending sort on the property-level occupancy rate. -/
def occDesc (a b : OccMetric) : Bool := decide (b.occupancy_rate ≤ a.occupancy_rate)

/-- `calculate_occupancy_metrics`: group by hotel (order of first
appearance), sort each group by check-in date, aggregate, and sort the
output by property occupancy rate descending. -/
def calculate_occupancy_metrics (df : List Row) : List OccMetric :=
  if df.isEmpty then []
  else
    sortBy occDesc
      ((uniqueNames df).map (fun h =>
        occMetricsForHotel h
          (sortBy dateLe (df.filter (fun r => decide (r.hotel_name = h))))))

/-! ### Claim C2 -/

theorem occAvgRoomOcc_eq_zero (rows : List Row)
    (h : (occContribOf rows).isEmpty = true) : occAvgRoomOcc rows = 0 := by
  unfold occAvgRoomOcc
  simp [h]

theorem occCond_iff (rows : List Row) :
    occCond rows = true ↔
      ((∃ e, occEst rows = some e ∧ 1 < e) ∧ 0 < occAvgRoomOcc rows) := by
  unfold occCond
  constructor
  · intro h
    simp only [Bool.and_eq_true, Bool.not_eq_true'] at h
    obtain ⟨⟨h1, h2⟩, h3⟩ := h
    refine ⟨?_, of_decide_eq_true h3⟩
    cases he : occEst rows with
    | none => rw [he] at h1; simp at h1
    | some e =>
      rw [he] at h1
      exact ⟨e, rfl, of_decide_eq_true h1⟩
  · rintro ⟨⟨e, he, hlt⟩, havg⟩
    have hne : (occContribOf rows).isEmpty = false := by
      cases hc : (occContribOf rows).isEmpty with
      | false => rfl
      | true =>
        rw [occAvgRoomOcc_eq_zero rows hc] at havg
        exact absurd havg (by norm_num)
    simp [he, hlt, havg, hne]

theorem occMetricsForHotel_pref (hotel : String) (rows : List Row) :
    (((occMetricsForHotel hotel rows).preferred_occupancy_source = "room" ∧
      (occMetricsForHotel hotel rows).preferred_occupancy_rate =
        (occMetricsForHotel hotel rows).avg_room_occupancy_rate) ↔
      ((∃ e, (occMetricsForHotel hotel rows).room_type_count_estimate = some e ∧ 1 < e) ∧
        0 < (occMetricsForHotel hotel rows).avg_room_occupancy_rate)) ∧
    (¬((∃ e, (occMetricsForHotel hotel rows).room_type_count_estimate = some e ∧ 1 < e) ∧
        0 < (occMetricsForHotel hotel rows).avg_room_occupancy_rate) →
      (occMetricsForHotel hotel rows).preferred_occupancy_source = "property" ∧
      (occMetricsForHotel hotel rows).preferred_occupancy_rate =
        (occMetricsForHotel hotel rows).property_occupancy_rate) := by
  have hsrc : (occMetricsForHotel hotel rows).preferred_occupancy_source =
      (if occCond rows then "room" else "property") := rfl
  have hpref : (occMetricsForHotel hotel rows).preferred_occupancy_rate =
      (if occCond rows then occAvgRoomOcc rows else occPropRate rows) := rfl
  have hest : (occMetricsForHotel hotel rows).room_type_count_estimate = occEst rows := rfl
  have havg : (occMetricsForHotel hotel rows).avg_room_occupancy_rate =
      occAvgRoomOcc rows := rfl
  have hprop : (occMetricsForHotel hotel rows).property_occupancy_rate =
      occPropRate rows := rfl
  rw [hsrc, hpref, hest, havg, hprop]
  cases hc : occCond rows with
  | true =>
    have h2 := (occCond_iff rows).mp hc
    exact ⟨⟨fun _ => h2, fun _ => ⟨by simp, by simp⟩⟩, fun hn => absurd h2 hn⟩
  | false =>
    have hnot : ¬((∃ e, occEst rows = some e ∧ 1 < e) ∧ 0 < occAvgRoomOcc rows) := by
      intro h
      rw [(occCond_iff rows).mpr h] at hc
      cases hc
    refine ⟨⟨fun hf => ?_, fun hr => absurd hr hnot⟩, fun _ => ⟨by simp, by simp⟩⟩
    exfalso
    have h1 := hf.1
    rw [if_neg (by simp : ¬(false = true))] at h1
    exact absurd h1 (by decide)

/-- C2: in every row of `calculate_occupancy_metrics`, the preferred
occupancy rate is the room-level average with source tag `room` iff the
room-type estimate exceeds 1 and the room-level average occupancy is
positive; otherwise it is the property-level rate (the percentage of
checks sold out) with source tag `property`.  The `occupancy_values`
non-emptiness the code additionally tests is implied by a positive
average, so the guard is exactly the claimed conjunction. -/
theorem c2_preferred_occupancy (df : List Row) (m : OccMetric)
    (hm : m ∈ calculate_occupancy_metrics df) :
    ((m.preferred_occupancy_source = "room" ∧
      m.preferred_occupancy_rate = m.avg_room_occupancy_rate) ↔
      ((∃ e, m.room_type_count_estimate = some e ∧ 1 < e) ∧
        0 < m.avg_room_occupancy_rate)) ∧
    (¬((∃ e, m.room_type_count_estimate = some e ∧ 1 < e) ∧
        0 < m.avg_room_occupancy_rate) →
      m.preferred_occupancy_source = "property" ∧
      m.preferred_occupancy_rate = m.property_occupancy_rate) ∧
    (0 < m.total_checks →
      m.property_occupancy_rate = (m.sold_out : ℚ) / (m.total_checks : ℚ) * 100) := by
  unfold calculate_occupancy_metrics at hm
  by_cases hdf : df.isEmpty = true
  · rw [if_pos hdf] at hm
    exact absurd hm (List.not_mem_nil m)
  · rw [if_neg hdf, mem_sortBy] at hm
    obtain ⟨h, hh, rfl⟩ := List.mem_map.mp hm
    obtain ⟨hiff, helse⟩ := occMetricsForHotel_pref h
      (sortBy dateLe (df.filter (fun r => decide (r.hotel_name = h))))
    refine ⟨hiff, helse, fun hpos => ?_⟩
    have hrate : (occMetricsForHotel h
        (sortBy dateLe (df.filter (fun r => decide (r.hotel_name = h))))).property_occupancy_rate =
        occPropRate (sortBy dateLe (df.filter (fun r => decide (r.hotel_name = h)))) := rfl
    rw [hrate]
    unfold occPropRate
    have hpos2 : 0 < (sortBy dateLe (df.filter (fun r => decide (r.hotel_name = h)))).length := hpos
    rw [if_pos hpos2]
    rfl

/-- The data frame of the C2 witness: one property, two checks, five room
types, one check sold out. -/
def c2Df : List Row :=
  [{ hotel_name := "H", check_in_date := "2026-01-01", availability := "available",
     nights := some 2, total_price := some 1000, price_per_night := some 500,
     min_room_price := some 400, max_room_price := some 600,
     avg_room_price := some 500, total_room_types := some 5,
     available_room_types := some 3 },
   { hotel_name := "H", check_in_date := "2026-01-02", availability := "sold_out",
     nights := some 2, total_price := none, price_per_night := none,
     min_room_price := none, max_room_price := none, avg_room_price := none,
     total_room_types := some 5, available_room_types := some 0 }]

/-- Witness for `c2_preferred_occupancy`: on `c2Df` the estimate is 5 > 1
and the room-level average occupancy is positive, so the preferred rate is
the room-level average with source tag `room`. -/
theorem c2_preferred_occupancy_witness :
    (calculate_occupancy_metrics c2Df).headI.preferred_occupancy_source = "room" ∧
    (calculate_occupancy_metrics c2Df).headI.preferred_occupancy_rate =
      (calculate_occupancy_metrics c2Df).headI.avg_room_occupancy_rate := by
  have h := (c2_preferred_occupancy c2Df (calculate_occupancy_metrics c2Df).headI
    (by with_unfolding_all decide)).1
  exact h.mpr ⟨⟨5, by with_unfolding_all decide, by with_unfolding_all decide⟩,
    by with_unfolding_all decide⟩

/-! ## `analyze.py`: the room-sample loop of `analyze_room_inventory` -/

/-- `normalise_price`: divide by nights when positive, else fall back to
the row's own per-night price, else use the raw value unscaled. -/
def normalisePrice (r : Row) (v : Option ℚ) : Option ℚ :=
  match v with
  | none => none
  | some x =>
    match r.nights with
    | some n =>
      if 0 < n then some (x / n)
      else match r.price_per_night with
        | some p => some p
        | none => some x
    | none =>
      match r.price_per_night with
      | some p => some p
      | none => some x

/-- One entry of `room_samples` in `analyze_room_inventory`. -/
structure InvSample where
  total : ℚ
  available : ℚ
  sold_out : ℚ
  occupancy_pct : ℚ
  min_price : Option ℚ
  max_price : Option ℚ
  avg_price : Option ℚ
  deriving DecidableEq

/-- The sample built for one row once an effective total `t` is known:
available defaults to 0 on sold-out rows and to the full total otherwise;
available is *not* clamped; sold-out is floored at 0. -/
def invSampleFrom (t : ℚ) (r : Row) : InvSample :=
  let a : ℚ := match r.available_room_types with
    | some v => v
    | none => if r.availability = "sold_out" then 0 else t
  let sold := max (t - a) 0
  { total := t, available := a, sold_out := sold,
    occupancy_pct := if t ≠ 0 then sold / t * 100 else 0,
    min_price := normalisePrice r r.min_room_price,
    max_price := normalisePrice r r.max_room_price,
    avg_price := normalisePrice r r.avg_room_price }

/-- The per-row loop of `analyze_room_inventory`: a positive reported
total is used and remembered; otherwise the carried (truthy) total is
used; rows before any known total are skipped. -/
def invSamplesGo (carry : Option ℚ) : List Row → List InvSample
  | [] => []
  | r :: rest =>
    match r.total_room_types with
    | some v =>
      if 0 < v then invSampleFrom v r :: invSamplesGo (some v) rest
      else match carry with
        | some cv =>
          if cv ≠ 0 then invSampleFrom cv r :: invSamplesGo carry rest
          else invSamplesGo carry rest
        | none => invSamplesGo carry rest
    | none =>
      match carry with
      | some cv =>
        if cv ≠ 0 then invSampleFrom cv r :: invSamplesGo carry rest
        else invSamplesGo carry rest
      | none => invSamplesGo carry rest

/-- The room samples `analyze_room_inventory` builds for one property's
date-ordered history. -/
def invRoomSamples (rows : List Row) : List InvSample := invSamplesGo none rows

/-! ### Claim C3 -/

theorem occContrib_inv (est : Option ℚ) (samples : List OccSample) :
    ∀ s ∈ occContrib est samples,
      0 ≤ s.available ∧ s.available ≤ s.total ∧ s.sold = s.total - s.available ∧
      0 ≤ s.sold ∧ 0 < s.total := by
  induction samples with
  | nil => intro s hs; simp [occContrib] at hs
  | cons a rest ih =>
    intro s hs
    simp only [occContrib] at hs
    split at hs
    · exact ih s hs
    · rename_i t heq
      by_cases ht : t ≤ 0
      · rw [if_pos ht] at hs
        exact ih s hs
      · rw [if_neg ht] at hs
        have ht0 : 0 < t := lt_of_not_le ht
        split at hs
        · exact ih s hs
        · rename_i a0 heq2
          rcases List.mem_cons.mp hs with rfl | hs2
          · refine ⟨le_min (le_max_right a0 0) (le_of_lt ht0), min_le_right _ _,
              max_eq_left (sub_nonneg.mpr (min_le_right _ _)), le_max_right _ _, ht0⟩
          · exact ih s hs2

theorem invSamplesGo_inv (rows : List Row) :
    ∀ (carry : Option ℚ), (∀ cv, carry = some cv → 0 < cv) →
    ∀ s ∈ invSamplesGo carry rows,
      0 < s.total ∧ s.sold_out = max (s.total - s.available) 0 ∧ 0 ≤ s.sold_out := by
  induction rows with
  | nil => intro carry hc s hs; simp [invSamplesGo] at hs
  | cons r rest ih =>
    intro carry hc s hs
    simp only [invSamplesGo] at hs
    split at hs
    · rename_i v hv0
      by_cases hv : 0 < v
      · rw [if_pos hv] at hs
        rcases List.mem_cons.mp hs with rfl | hs2
        · exact ⟨hv, rfl, le_max_right _ _⟩
        · exact ih (some v) (fun x hx => by cases hx; exact hv) s hs2
      · rw [if_neg hv] at hs
        split at hs
        · rename_i cv
          have hcv : 0 < cv := hc cv rfl
          rw [if_pos (ne_of_gt hcv)] at hs
          rcases List.mem_cons.mp hs with rfl | hs2
          · exact ⟨hcv, rfl, le_max_right _ _⟩
          · exact ih (some cv) hc s hs2
        · exact ih none (by simp) s hs
    · split at hs
      · rename_i cv
        have hcv : 0 < cv := hc cv rfl
        rw [if_pos (ne_of_gt hcv)] at hs
        rcases List.mem_cons.mp hs with rfl | hs2
        · exact ⟨hcv, rfl, le_max_right _ _⟩
        · exact ih (some cv) hc s hs2
      · exact ih none (by simp) s hs

/-- A history whose single row reports 3 total room types but 5 available
room types (the DOM price-cell fallback can produce such rows). -/
def c3Row : Row :=
  { hotel_name := "H", check_in_date := "2026-01-01", availability := "available",
    nights := some 1, total_price := none, price_per_night := none,
    min_room_price := none, max_room_price := none, avg_room_price := none,
    total_room_types := some 3, available_room_types := some 5 }

/-- Counterexample to C3 as stated: `analyze_room_inventory` does not
clamp the available count, so the sample for `c3Row` has
`available = 5 > 3 = total` and `sold_out = max(3-5, 0) = 0 ≠ total −
available`. -/
theorem c3_counterexample :
    invRoomSamples [c3Row] =
      [{ total := 3, available := 5, sold_out := 0, occupancy_pct := 0,
         min_price := none, max_price := none, avg_price := none }] ∧
    ¬((5 : ℚ) ≤ 3) ∧ ¬((0 : ℚ) = 3 - 5) := by
  refine ⟨?_, by norm_num, by norm_num⟩
  with_unfolding_all decide

/-- C3 (amended): in `calculate_occupancy_metrics` every contributing
room sample satisfies the full invariant — `0 ≤ available ≤ total`,
`sold = total − available ≥ 0`, `total > 0` (available is clamped).  In
`analyze_room_inventory` the available count is taken as reported without
clamping, so only `total > 0` and `sold_out = max(total − available, 0) ≥
0` hold; available may exceed the effective total. -/
theorem c3_room_sample_invariant :
    (∀ rows : List Row, ∀ s ∈ occContrib (occEst rows) (occSamples rows),
      0 ≤ s.available ∧ s.available ≤ s.total ∧
      s.sold = s.total - s.available ∧ 0 ≤ s.sold ∧ 0 < s.total) ∧
    (∀ rows : List Row, ∀ s ∈ invRoomSamples rows,
      0 < s.total ∧ s.sold_out = max (s.total - s.available) 0 ∧ 0 ≤ s.sold_out) :=
  ⟨fun rows s hs => occContrib_inv (occEst rows) (occSamples rows) s hs,
    fun rows s hs => invSamplesGo_inv rows none (by simp) s hs⟩

/-- A row reporting 7 available out of 5 total room types. -/
def c3WRow : Row :=
  { hotel_name := "H", check_in_date := "2026-01-01", availability := "available",
    nights := some 1, total_price := none, price_per_night := none,
    min_room_price := none, max_room_price := none, avg_room_price := none,
    total_room_types := some 5, available_room_types := some 7 }

/-- Witness for `c3_room_sample_invariant`: the clamped sample of a row
reporting 7 available out of an estimated 5 room types. -/
theorem c3_room_sample_invariant_witness :
    ∃ s, s ∈ occContrib (occEst [c3WRow]) (occSamples [c3WRow]) ∧
      0 ≤ s.available ∧ s.available ≤ s.total ∧
      s.sold = s.total - s.available ∧ 0 ≤ s.sold ∧ 0 < s.total := by
  refine ⟨{ total := 5, available := 5, sold := 0, occ := 0 }, ?_, ?_⟩
  · with_unfolding_all decide
  · exact c3_room_sample_invariant.1 [c3WRow] _ (by with_unfolding_all decide)

/-! ## `analyze.py`: `calculate_pricing_metrics` -/

/-- One output row of `calculate_pricing_metrics` (the fields the claims
read; median/std-dev/discount/rating statistics are omitted). -/
structure PricingMetric where
  hotel_name : String
  avg_price_per_night : Option ℚ
  preferred_price_per_night : Option ℚ
  preferred_price_source : String
  property_avg_price_per_night : Option ℚ
  room_type_count_estimate : Option ℚ
  avg_min_room_price : Option ℚ
  avg_max_room_price : Option ℚ
  avg_room_price_avg : Option ℚ
  deriving DecidableEq, Inhabited

/-- `as_per_night`: divide by nights when positive and known, else fall
back to the row's per-night price, else use the raw value. -/
def as_per_night (r : Row) (v : Option ℚ) : Option ℚ :=
  match v with
  | none => none
  | some x =>
    match r.nights with
    | some n =>
      if 0 < n then some (x / n)
      else match r.price_per_night with
        | some p => some p
        | none => some x
    | none =>
      match r.price_per_night with
      | some p => some p
      | none => some x

/-- Elementwise `(min + max) / 2` with NaN propagation. -/
def oavg2 (a b : Option ℚ) : Option ℚ :=
  match a, b with
  | some x, some y => some ((x + y) / 2)
  | _, _ => none

/-- The rows with a reported `min_room_price` for one hotel. -/
def roomPriced (priced_rows : List Row) : List Row :=
  priced_rows.filter (fun r => !r.min_room_price.isNone)

/-- The `avg_room_price_per_night` column: per-row normalised average,
replaced by `(min + max)/2` when every entry is NaN. -/
def avgColumn (rp : List Row) : List (Option ℚ) :=
  let col := rp.map (fun r => as_per_night r r.avg_room_price)
  if !rp.isEmpty && (col.filterMap id).isEmpty then
    (rp.map (fun r => as_per_night r r.min_room_price)).zipWith oavg2
      (rp.map (fun r => as_per_night r r.max_room_price))
  else col

/-- `avg_room_price_avg = room_priced[...].mean() if len > 0 else None`. -/
def avgRoomPriceAvg (rp : List Row) : Option ℚ :=
  if rp.isEmpty then none else meanOpt (avgColumn rp)

/-- `room_type_estimate = total_room_types.dropna().max()` over the
hotel's priced rows. -/
def priceEstimate (priced_rows : List Row) : Option ℚ :=
  listMax? ((priced_rows.map (fun r => r.total_room_types)).filterMap id)

/-- `has_room_signal`: room-priced rows exist, the room-level average is
defined (non-NaN), and the room-type estimate is greater than 1. -/
def priceCond (priced_rows : List Row) : Bool :=
  !(roomPriced priced_rows).isEmpty &&
    !(avgRoomPriceAvg (roomPriced priced_rows)).isNone &&
    (match priceEstimate priced_rows with
      | some e => decide (1 < e)
      | none => false)

/-- The per-hotel body of `calculate_pricing_metrics`, applied to the
hotel's priced rows; `none` when the hotel has no priced rows. -/
def pricingForHotel (hotel : String) (priced_rows : List Row) : Option PricingMetric :=
  if priced_rows.isEmpty then none
  else
    let rp := roomPriced priced_rows
    let property_avg := meanOpt (priced_rows.map (fun r => r.price_per_night))
    let avg_min := if rp.isEmpty then none
      else meanOpt (rp.map (fun r => as_per_night r r.min_room_price))
    let avg_max := if rp.isEmpty then none
      else meanOpt (rp.map (fun r => as_per_night r r.max_room_price))
    some
      { hotel_name := hotel,
        avg_price_per_night := property_avg,
        preferred_price_per_night :=
          if priceCond priced_rows then avgRoomPriceAvg rp else property_avg,
        preferred_price_source := if priceCond priced_rows then "room" else "property",
        property_avg_price_per_night := property_avg,
        room_type_count_estimate := priceEstimate priced_rows,
        avg_min_room_price := avg_min,
        avg_max_room_price := avg_max,
        avg_room_price_avg := avgRoomPriceAvg rp }

/-- Descending sort on the property average price, NaN last. -/
def priceDesc (a b : PricingMetric) : Bool :=
  match a.avg_price_per_night, b.avg_price_per_night with
  | _, none => true
  | none, some _ => false
  | some x, some y => decide (y ≤ x)

/-- `calculate_pricing_metrics`: restrict to available rows with a price,
group by hotel, aggregate, and sort by property average price
descending. -/
def calculate_pricing_metrics (df : List Row) : List PricingMetric :=
  let df_priced := df.filter
    (fun r => decide (r.availability = "available") && !r.total_price.isNone)
  if df_priced.isEmpty then []
  else
    sortBy priceDesc
      ((uniqueNames df).filterMap (fun h =>
        pricingForHotel h (df_priced.filter (fun r => decide (r.hotel_name = h)))))

/-! ### Claim C9 -/

theorem avgRoomPriceAvg_ne_none_nonempty (rp : List Row)
    (h : avgRoomPriceAvg rp ≠ none) : rp.isEmpty = false := by
  cases hc : rp.isEmpty with
  | false => rfl
  | true =>
    exfalso
    apply h
    unfold avgRoomPriceAvg
    rw [if_pos hc]

theorem priceCond_iff (rows : List Row) :
    priceCond rows = true ↔
      (avgRoomPriceAvg (roomPriced rows) ≠ none ∧
        ∃ e, priceEstimate rows = some e ∧ 1 < e) := by
  unfold priceCond
  cases hov : avgRoomPriceAvg (roomPriced rows) with
  | none =>
    constructor
    · intro h
      simp at h
    · rintro ⟨havg, -⟩
      exact absurd rfl havg
  | some v =>
    have hne : (roomPriced rows).isEmpty = false := by
      cases hc : (roomPriced rows).isEmpty with
      | false => rfl
      | true =>
        exfalso
        have hnone : avgRoomPriceAvg (roomPriced rows) = none := by
          unfold avgRoomPriceAvg
          rw [if_pos hc]
        rw [hov] at hnone
        cases hnone
    constructor
    · intro h
      rw [hne] at h
      simp only [Bool.and_eq_true] at h
      obtain ⟨-, h3⟩ := h
      refine ⟨by simp [hov], ?_⟩
      cases he : priceEstimate rows with
      | none => rw [he] at h3; simp at h3
      | some e =>
        rw [he] at h3
        exact ⟨e, rfl, of_decide_eq_true h3⟩
    · rintro ⟨-, e, he, hlt⟩
      rw [hne, he]
      simp [hlt]

theorem pricingForHotel_fields (hotel : String) (rows : List Row) (m : PricingMetric)
    (h : pricingForHotel hotel rows = some m) :
    m.preferred_price_source = (if priceCond rows then "room" else "property") ∧
    m.preferred_price_per_night = (if priceCond rows then
      avgRoomPriceAvg (roomPriced rows)
      else meanOpt (rows.map (fun r => r.price_per_night))) ∧
    m.property_avg_price_per_night = meanOpt (rows.map (fun r => r.price_per_night)) ∧
    m.room_type_count_estimate = priceEstimate rows ∧
    m.avg_room_price_avg = avgRoomPriceAvg (roomPriced rows) := by
  unfold pricingForHotel at h
  by_cases he : rows.isEmpty = true
  · rw [if_pos he] at h
    cases h
  · rw [if_neg he] at h
    have := Option.some.inj h
    subst this
    exact ⟨rfl, rfl, rfl, rfl, rfl⟩

/-- C9 (amended): the preferred price is the room-level average per-night
price with source tag `room` iff room-level price samples exist AND the
room-level average per-night price is defined (not NaN) AND the room-type
estimate is greater than 1; otherwise it is the property-level average
with source tag `property`.  (A defined room-level average implies that
room-priced samples exist, so the sample-existence conjunct is folded
into definedness.) -/
theorem c9_preferred_price (df : List Row) (m : PricingMetric)
    (hm : m ∈ calculate_pricing_metrics df) :
    ((m.preferred_price_source = "room") ↔
      (m.avg_room_price_avg ≠ none ∧
        ∃ e, m.room_type_count_estimate = some e ∧ 1 < e)) ∧
    (m.preferred_price_source = "room" →
      m.preferred_price_per_night = m.avg_room_price_avg) ∧
    (m.preferred_price_source ≠ "room" →
      m.preferred_price_source = "property" ∧
      m.preferred_price_per_night = m.property_avg_price_per_night) := by
  unfold calculate_pricing_metrics at hm
  by_cases hdp : (df.filter
      (fun r => decide (r.availability = "available") && !r.total_price.isNone)).isEmpty = true
  · rw [if_pos hdp] at hm
    exact absurd hm (List.not_mem_nil m)
  · rw [if_neg hdp, mem_sortBy] at hm
    obtain ⟨h, hh, hsome⟩ := List.mem_filterMap.mp hm
    set rows2 := (df.filter
      (fun r => decide (r.availability = "available") && !r.total_price.isNone)).filter
      (fun r => decide (r.hotel_name = h)) with hrows2
    obtain ⟨hsrc, hpref, hprop, hest, havg⟩ := pricingForHotel_fields h rows2 m hsome
    rw [hsrc, hpref, hprop, hest, havg]
    cases hc : priceCond rows2 with
    | true =>
      have h2 := (priceCond_iff rows2).mp hc
      refine ⟨⟨fun _ => h2, fun _ => by simp⟩, fun _ => by simp, fun hne => ?_⟩
      exact absurd (by simp) hne
    | false =>
      have hnot := mt (priceCond_iff rows2).mpr (by simp [hc])
      refine ⟨⟨fun hf => ?_, fun h2 => absurd h2 hnot⟩, fun hf => ?_, fun _ => ⟨by simp, by simp⟩⟩
      · rw [if_neg (by simp : ¬(false = true))] at hf
        exact absurd hf (by decide)
      · rw [if_neg (by simp : ¬(false = true))] at hf
        exact absurd hf (by decide)

/-- A priced row whose `avg_room_price` and `max_room_price` are NaN while
`min_room_price` is reported and the room-type count is 2. -/
def c9Row : Row :=
  { hotel_name := "H", check_in_date := "2026-01-01", availability := "available",
    nights := some 2, total_price := some 200, price_per_night := some 100,
    min_room_price := some 100, max_room_price := none, avg_room_price := none,
    total_room_types := some 2, available_room_types := some 1 }

/-- Counterexample to C9 as stated: for `c9Row` room-level price samples
exist (`avg_min_room_price` is defined, 50 per night) and the room-type
estimate is 2 > 1, yet the source tag is `property`: the room-level
average is NaN (avg and max are NaN, and the `(min+max)/2` fallback still
yields NaN), and the code additionally requires it to be defined. -/
theorem c9_counterexample :
    (calculate_pricing_metrics [c9Row]).headI.preferred_price_source = "property" ∧
    (calculate_pricing_metrics [c9Row]).headI.avg_min_room_price = some 50 ∧
    (calculate_pricing_metrics [c9Row]).headI.room_type_count_estimate = some 2 ∧
    (calculate_pricing_metrics [c9Row]).length = 1 ∧
    ("property" : String) ≠ "room" := by
  with_unfolding_all decide

/-- A priced row with min, max and avg room prices all reported, room
count 2. -/
def c9WRow : Row :=
  { hotel_name := "H", check_in_date := "2026-01-01", availability := "available",
    nights := some 2, total_price := some 200, price_per_night := some 100,
    min_room_price := some 100, max_room_price := some 100,
    avg_room_price := some 100, total_room_types := some 2,
    available_room_types := some 1 }

/-- Witness for `c9_preferred_price`: with a defined room-level average
and estimate 2 > 1, the tag is `room` and the preferred price is the
room-level average. -/
theorem c9_preferred_price_witness :
    (calculate_pricing_metrics [c9WRow]).headI.preferred_price_per_night =
      (calculate_pricing_metrics [c9WRow]).headI.avg_room_price_avg :=
  (c9_preferred_price [c9WRow] (calculate_pricing_metrics [c9WRow]).headI
    (by with_unfolding_all decide)).2.1 (by with_unfolding_all decide)

/-! ## `analyze.py`: `compare_to_reference`

pandas NaN-propagating arithmetic on `Option ℚ`: any operation with a
missing operand is missing; a comparison with a missing operand is
false. -/

def osub (a b : Option ℚ) : Option ℚ :=
  match a, b with
  | some x, some y => some (x - y)
  | _, _ => none

def odivmul100 (a b : Option ℚ) : Option ℚ :=
  match a, b with
  | some x, some y => some (x / y * 100)
  | _, _ => none

/-- `x > 0` with NaN compared as false. -/
def ogt0 (a : Option ℚ) : Bool :=
  match a with
  | some x => decide (0 < x)
  | none => false

/-- `a if a is not NaN else b`. -/
def orElseO (a b : Option ℚ) : Option ℚ :=
  match a with
  | some x => some x
  | none => b

/-- One output row of `compare_to_reference`. -/
structure ComparisonRecord where
  hotel_name : String
  avg_price : Option ℚ
  price_vs_ref : Option ℚ
  price_vs_ref_pct : Option ℚ
  property_avg_price : Option ℚ
  property_price_vs_ref : Option ℚ
  property_price_vs_ref_pct : Option ℚ
  occupancy : ℚ
  occ_vs_ref : ℚ
  property_occupancy : ℚ
  property_occ_vs_ref : ℚ
  position : String
  demand : String
  room_avg_price : Option ℚ
  room_price_vs_ref : Option ℚ
  room_price_vs_ref_pct : Option ℚ
  room_occupancy : ℚ
  room_occ_vs_ref : ℚ
  preferred_price_source : String
  preferred_occupancy_source : String
  deriving DecidableEq, Inhabited

/-- The comparison record for one non-reference pricing row, given the
reference figures; `none` when the row is the reference or has no
occupancy row.  (`property_occ` is never NaN in the occupancy metrics
this consumes, so the `isna` re-checks of the source degenerate.) -/
def compareOne (refName : String) (ref_price ref_property_price : Option ℚ)
    (ref_occ ref_property_occ : ℚ) (ref_room_price : Option ℚ) (ref_room_occ : ℚ)
    (occ : List OccMetric) (row : PricingMetric) : Option ComparisonRecord :=
  if row.hotel_name = refName then none
  else
    match occ.find? (fun o => decide (o.hotel_name = row.hotel_name)) with
    | none => none
    | some orow =>
      let preferred_price := orElseO row.preferred_price_per_night row.avg_price_per_night
      let property_price := orElseO row.property_avg_price_per_night preferred_price
      let price_diff := osub preferred_price ref_price
      let price_diff_pct :=
        if ogt0 ref_price then odivmul100 price_diff ref_price else some 0
      let property_price_diff := match ref_property_price with
        | some v => if v = 0 then none else osub property_price (some v)
        | none => none
      let property_price_diff_pct := match ref_property_price with
        | some v => if v = 0 then none else odivmul100 property_price_diff (some v)
        | none => none
      let preferred_occ := orow.preferred_occupancy_rate
      let property_occ := orow.property_occupancy_rate
      let occ_diff := preferred_occ - ref_occ
      let room_trio : Option ℚ × Option ℚ × Option ℚ :=
        match row.avg_room_price_avg, ref_room_price with
        | some x, some rrp =>
          (some x, some (x - rrp),
            if 0 < rrp then some ((x - rrp) / rrp * 100) else some 0)
        | _, _ => (none, none, none)
      some
        { hotel_name := row.hotel_name,
          avg_price := preferred_price,
          price_vs_ref := price_diff,
          price_vs_ref_pct := price_diff_pct,
          property_avg_price := property_price,
          property_price_vs_ref := property_price_diff,
          property_price_vs_ref_pct := property_price_diff_pct,
          occupancy := preferred_occ,
          occ_vs_ref := occ_diff,
          property_occupancy := property_occ,
          property_occ_vs_ref := property_occ - ref_property_occ,
          position := if ogt0 price_diff then "Higher Price" else "Lower Price",
          demand := if 0 < occ_diff then "Higher Demand" else "Lower Demand",
          room_avg_price := room_trio.1,
          room_price_vs_ref := room_trio.2.1,
          room_price_vs_ref_pct := room_trio.2.2,
          room_occupancy := orow.avg_room_occupancy_rate,
          room_occ_vs_ref := orow.avg_room_occupancy_rate - ref_room_occ,
          preferred_price_source := row.preferred_price_source,
          preferred_occupancy_source := orow.preferred_occupancy_source }

/-- Ascending sort key on `price_vs_ref_pct`, NaN placed last
(pandas `sort_values` default `na_position`). -/
def pctLe (a b : ComparisonRecord) : Bool :=
  match a.price_vs_ref_pct, b.price_vs_ref_pct with
  | _, none => true
  | none, some _ => false
  | some x, some y => decide (x ≤ y)

/-- `compare_to_reference`: resolve the reference figures, build one
record per other property with an occupancy row, and sort by the
preferred-price percentage delta ascending.  Returns `[]` (with a logged
warning) when the reference is absent from either table. -/
def compare_to_reference (refName : String) (pricing : List PricingMetric)
    (occ : List OccMetric) : List ComparisonRecord :=
  match pricing.find? (fun p => decide (p.hotel_name = refName)),
      occ.find? (fun o => decide (o.hotel_name = refName)) with
  | some rp, some ro =>
    let ref_price := orElseO rp.preferred_price_per_night rp.avg_price_per_night
    let ref_property_price := orElseO rp.property_avg_price_per_night ref_price
    sortBy pctLe
      (pricing.filterMap
        (compareOne refName ref_price ref_property_price
          ro.preferred_occupancy_rate ro.property_occupancy_rate
          rp.avg_room_price_avg ro.avg_room_occupancy_rate occ))
  | _, _ => []

/-! ### Claim C8 -/

theorem pctLe_total (a b : ComparisonRecord) : pctLe a b = true ∨ pctLe b a = true := by
  unfold pctLe
  cases ha : a.price_vs_ref_pct with
  | none => cases hb : b.price_vs_ref_pct <;> simp
  | some x =>
    cases hb : b.price_vs_ref_pct with
    | none => simp
    | some y =>
      rcases le_total x y with h | h
      · left; simpa using h
      · right; simpa using h

theorem pctLe_trans (a b c : ComparisonRecord) (hab : pctLe a b = true)
    (hbc : pctLe b c = true) : pctLe a c = true := by
  unfold pctLe at hab hbc ⊢
  cases hc : c.price_vs_ref_pct with
  | none => simp
  | some z =>
    rw [hc] at hbc
    cases hb : b.price_vs_ref_pct with
    | none => rw [hb] at hbc; simp at hbc
    | some y =>
      rw [hb] at hab hbc
      cases ha : a.price_vs_ref_pct with
      | none => rw [ha] at hab; simp at hab
      | some x =>
        rw [ha] at hab
        simp only [decide_eq_true_eq] at hab hbc ⊢
        exact le_trans hab hbc

/-- C8: for a non-reference property with rows in both metrics tables
(and defined, positive reference preferred price), the emitted comparison
carries `price_vs_ref` = subject preferred − reference preferred,
`price_vs_ref_pct` = that difference / reference preferred × 100, the
position label `Higher Price` exactly when the preferred price delta is
positive (else `Lower Price`), the demand label `Higher Demand` exactly
when the preferred occupancy delta is positive (else `Lower Demand`);
and the output is sorted by `price_vs_ref_pct` ascending (among the
defined percentage values). -/
theorem c8_comparison (refName : String) (pricing : List PricingMetric)
    (occ : List OccMetric) (rp : PricingMetric) (ro : OccMetric)
    (r : PricingMetric) (orow : OccMetric) (refp p : ℚ)
    (h1 : pricing.find? (fun q => decide (q.hotel_name = refName)) = some rp)
    (h2 : occ.find? (fun o => decide (o.hotel_name = refName)) = some ro)
    (h3 : rp.preferred_price_per_night = some refp)
    (h4 : 0 < refp)
    (h5 : r ∈ pricing)
    (h6 : ¬(r.hotel_name = refName))
    (h7 : occ.find? (fun o => decide (o.hotel_name = r.hotel_name)) = some orow)
    (h8 : r.preferred_price_per_night = some p) :
    (∃ c ∈ compare_to_reference refName pricing occ,
      c.hotel_name = r.hotel_name ∧
      c.price_vs_ref = some (p - refp) ∧
      c.price_vs_ref_pct = some ((p - refp) / refp * 100) ∧
      c.position = (if 0 < p - refp then "Higher Price" else "Lower Price") ∧
      c.occ_vs_ref = orow.preferred_occupancy_rate - ro.preferred_occupancy_rate ∧
      c.demand = (if 0 < orow.preferred_occupancy_rate - ro.preferred_occupancy_rate
        then "Higher Demand" else "Lower Demand")) ∧
    (compare_to_reference refName pricing occ).Pairwise
      (fun c1 c2 => ∀ x y, c1.price_vs_ref_pct = some x →
        c2.price_vs_ref_pct = some y → x ≤ y) := by
  constructor
  · have hcomp : compareOne refName
        (orElseO rp.preferred_price_per_night rp.avg_price_per_night)
        (orElseO rp.property_avg_price_per_night
          (orElseO rp.preferred_price_per_night rp.avg_price_per_night))
        ro.preferred_occupancy_rate ro.property_occupancy_rate
        rp.avg_room_price_avg ro.avg_room_occupancy_rate occ r ≠ none := by
      unfold compareOne
      rw [if_neg h6, h7]
      simp
    cases hcc : compareOne refName
        (orElseO rp.preferred_price_per_night rp.avg_price_per_night)
        (orElseO rp.property_avg_price_per_night
          (orElseO rp.preferred_price_per_night rp.avg_price_per_night))
        ro.preferred_occupancy_rate ro.property_occupancy_rate
        rp.avg_room_price_avg ro.avg_room_occupancy_rate occ r with
    | none => exact absurd hcc hcomp
    | some c =>
      refine ⟨c, ?_, ?_⟩
      · unfold compare_to_reference
        rw [h1, h2, mem_sortBy]
        exact List.mem_filterMap.mpr ⟨r, h5, hcc⟩
      · unfold compareOne at hcc
        rw [if_neg h6, h7] at hcc
        simp only [] at hcc
        have hc := Option.some.inj hcc
        subst hc
        refine ⟨rfl, ?_, ?_, ?_, rfl, ?_⟩
        · simp [h8, h3, orElseO, osub]
        · simp [h8, h3, orElseO, osub, odivmul100, ogt0, h4]
        · simp only [h8, h3, orElseO, osub, ogt0]
          by_cases hd : 0 < p - refp
          · simp [hd]
          · simp [hd]
        · by_cases hd : 0 < orow.preferred_occupancy_rate - ro.preferred_occupancy_rate
          · simp [hd]
          · simp [hd]
  · unfold compare_to_reference
    cases hf1 : pricing.find? (fun q => decide (q.hotel_name = refName)) with
    | none => simp
    | some rp2 =>
      cases hf2 : occ.find? (fun o => decide (o.hotel_name = refName)) with
      | none => simp
      | some ro2 =>
        refine List.Pairwise.imp ?_ (pairwise_sortBy pctLe pctLe_total pctLe_trans _)
        intro c1 c2 h x y hx hy
        unfold pctLe at h
        rw [hx, hy] at h
        exact of_decide_eq_true h

/-- Reference pricing row: preferred price 1000. -/
def c8RefP : PricingMetric :=
  { hotel_name := "Ref", avg_price_per_night := some 1000,
    preferred_price_per_night := some 1000, preferred_price_source := "property",
    property_avg_price_per_night := some 1000, room_type_count_estimate := none,
    avg_min_room_price := none, avg_max_room_price := none,
    avg_room_price_avg := none }

/-- Subject pricing row: preferred price 1200. -/
def c8SubP : PricingMetric :=
  { hotel_name := "S", avg_price_per_night := some 1200,
    preferred_price_per_night := some 1200, preferred_price_source := "property",
    property_avg_price_per_night := some 1200, room_type_count_estimate := none,
    avg_min_room_price := none, avg_max_room_price := none,
    avg_room_price_avg := none }

/-- Reference occupancy row: preferred rate 50. -/
def c8RefO : OccMetric :=
  { hotel_name := "Ref", total_checks := 10, available := 5, sold_out := 5,
    occupancy_rate := 50, availability_rate := 50, preferred_occupancy_rate := 50,
    preferred_occupancy_source := "property", property_occupancy_rate := 50,
    room_type_count_estimate := none, avg_total_room_types := 0,
    avg_available_room_types := 0, avg_sold_out_room_types := 0,
    avg_room_occupancy_rate := 0 }

/-- Subject occupancy row: preferred rate 60. -/
def c8SubO : OccMetric :=
  { hotel_name := "S", total_checks := 10, available := 4, sold_out := 6,
    occupancy_rate := 60, availability_rate := 40, preferred_occupancy_rate := 60,
    preferred_occupancy_source := "property", property_occupancy_rate := 60,
    room_type_count_estimate := none, avg_total_room_types := 0,
    avg_available_room_types := 0, avg_sold_out_room_types := 0,
    avg_room_occupancy_rate := 0 }

/-- Witness for `c8_comparison`: the spec scenario — reference price 1000
and subject price 1200 give `price_vs_ref = 200`, `price_vs_ref_pct =
20.0` and label `Higher Price` (and, rates 50 vs 60, `Higher Demand`). -/
theorem c8_comparison_witness :
    ∃ c ∈ compare_to_reference "Ref" [c8RefP, c8SubP] [c8RefO, c8SubO],
      c.hotel_name = "S" ∧ c.price_vs_ref = some 200 ∧
      c.price_vs_ref_pct = some 20 ∧ c.position = "Higher Price" ∧
      c.demand = "Higher Demand" := by
  obtain ⟨⟨c, hm, hname, hd, hpct, hpos, hocc, hdem⟩, -⟩ :=
    c8_comparison "Ref" [c8RefP, c8SubP] [c8RefO, c8SubO] c8RefP c8RefO c8SubP c8SubO
      1000 1200
      (by with_unfolding_all decide) (by with_unfolding_all decide)
      rfl (by norm_num) (by simp) (by with_unfolding_all decide)
      (by with_unfolding_all decide) rfl
  refine ⟨c, hm, hname, ?_, ?_, ?_, ?_⟩
  · rw [hd]; norm_num
  · rw [hpct]; norm_num
  · rw [hpos, if_pos (by norm_num : (0 : ℚ) < 1200 - 1000)]
  · rw [hdem]
    rw [if_pos (by with_unfolding_all decide :
      (0 : ℚ) < c8SubO.preferred_occupancy_rate - c8RefO.preferred_occupancy_rate)]

end AvureInsights
